import Mathlib

/-!
Verification development for btrfs-subv-backup (src/btrfs-subv-backup.py).

The Python program is shallowly embedded: each relevant function of the source
is translated into an executable Lean definition over an explicit model of the
data it manipulates (mount-table entries, directory trees, a path-keyed view of
the filesystem, and an operation trace for the conversion engine).  Python
exceptions are modelled by the `PyErr` type and `Except`/`Option` results.
External collaborators (the `btrfs` CLI, `blkid`, the random temporary-name
seed, the effective uid, the umask/clock metadata of freshly created files,
and per-file reflink feasibility) are parameters of the embeddings.
-/

/-- Python exception values raised by the program (type plus message). -/
inductive PyErr where
  | nameError (nm : String)
  | osError (msg : String)
  | valueError (msg : String)
  | exceptionErr (msg : String)
  | fileNotFound (p : String)
deriving DecidableEq, Repr

/-! ## MountInfoResolver: `get_fs_info` (src lines 102-150) -/

/-- One line of /proc/mounts, already split on whitespace: the code reads
fields `entry[0]` (device), `entry[1]` (mount path), `entry[2]` (fs type) and
`entry[3]` (comma-separated option string). -/
structure MntEnt where
  device : String
  mntPath : String
  fstype : String
  opts : String
deriving DecidableEq, Repr

/-- Result dictionary of `get_fs_info`.  `uuid`/`label` come from `blkid` and
are `none` when the lookup fails; `subvolume` is the `subvol=` mount option. -/
structure FsInfo where
  path : String
  device : String
  uuid : Option String
  label : Option String
  subvolume : Option String
  subvolid : Int
deriving DecidableEq, Repr

/-- Kernel-computable embedding of Python `str.split(',')` (src line 137):
splitting on every comma, keeping empty segments, one segment for the empty
string. -/
def splitCharsOn (sep : Char) : List Char → List (List Char)
  | [] => [[]]
  | c :: rest =>
    let r := splitCharsOn sep rest
    if c = sep then [] :: r
    else
      match r with
      | [] => [[c]]
      | seg :: segs => (c :: seg) :: segs

def pySplitComma (s : String) : List String :=
  (splitCharsOn ',' s.data).map (fun cs => String.mk cs)

def charsPre : List Char → List Char → Bool
  | [], _ => true
  | _ :: _, [] => false
  | a :: as, b :: bs => a == b && charsPre as bs

/-- Kernel-computable embedding of Python `str.startswith` (src lines
139 and 141). -/
def pyStartsWith (s pre : String) : Bool := charsPre pre.data s.data

def digitsAux (acc : Nat) : List Char → Option Nat
  | [] => some acc
  | c :: rest =>
    if 48 ≤ c.toNat && c.toNat ≤ 57 then
      digitsAux (acc * 10 + (c.toNat - 48)) rest
    else none

/-- Kernel-computable embedding of Python `int()` on a decimal literal (src
line 140): an optional sign followed by at least one digit, anything else a
ValueError (whitespace tolerance is irrelevant to mount options). -/
def pyIntStr (s : String) : Except String Int :=
  match s.data with
  | [] => Except.error s
  | '-' :: ds =>
    match ds, digitsAux 0 ds with
    | _ :: _, some n => Except.ok (-(n : Int))
    | _, _ => Except.error s
  | ds =>
    match digitsAux 0 ds with
    | some n => Except.ok (n : Int)
    | none => Except.error s

/-- Loop of src lines 138-142: scan the option list, keeping the last
`subvolid=`/`subvol=` values; `int()` on a malformed id raises ValueError. -/
def parseOptsLoop (acc : Option Int × Option String) :
    List String → Except PyErr (Option Int × Option String)
  | [] => Except.ok acc
  | item :: rest =>
    if pyStartsWith item "subvolid=" then
      match pyIntStr (item.drop 9) with
      | Except.ok n => parseOptsLoop (some n, acc.2) rest
      | Except.error s =>
          Except.error (PyErr.valueError
            ("invalid literal for int() with base 10: " ++ s))
    else if pyStartsWith item "subvol=" then
      parseOptsLoop (acc.1, some (item.drop 7)) rest
    else
      parseOptsLoop acc rest

/-- Embedding of `get_fs_info` (src lines 102-150).  `mounts` is the parsed
/proc/mounts table; `blk` is the result of the two `blkid` queries (`none`
models a `CalledProcessError`, which leaves both fields `None`).  The loop at
lines 129-133 matches the first entry whose fs type is `btrfs` AND whose mount
path equals the input, so a non-btrfs entry at the path is treated exactly
like an absent entry; `if not ret[..]` at line 143 is falsy for both `None`
and `0`. -/
def get_fs_info (path : String) (mounts : List MntEnt)
    (blk : Option (String × String)) : Except PyErr FsInfo :=
  match mounts.find? (fun e => e.fstype == "btrfs" && e.mntPath == path) with
  | none =>
      Except.error (PyErr.valueError
        (path ++ " is not a mountpoint, or is not a BTRFS filesystem."))
  | some ent =>
    match parseOptsLoop (none, none) (pySplitComma ent.opts) with
    | Except.error e => Except.error e
    | Except.ok (svid, svname) =>
      match svid with
      | none =>
          Except.error (PyErr.valueError
            ("Unable to determine mounted subvolume ID for " ++ path))
      | some n =>
        if n = 0 then
          Except.error (PyErr.valueError
            ("Unable to determine mounted subvolume ID for " ++ path))
        else
          Except.ok (FsInfo.mk path ent.device (blk.map Prod.fst)
            (blk.map Prod.snd) svname n)

/-! ## SubvolumeScanner: `get_subvol_list` (src lines 152-178) -/

/-- Directory tree as seen by the scanner: each directory has an on-disk inode
number, the result of the `_ismount` predicate (src lines 87-100, a
cross-check of /proc/mounts), and named subdirectories in `os.listdir` order.
Regular files are irrelevant to the scanner (only `dirs` entries are
examined), so they are not represented. -/
inductive DirTree where
  | node (ino : Nat) (isMnt : Bool) (children : List (String × DirTree))
deriving Repr

def DirTree.ino : DirTree → Nat
  | .node i _ _ => i

def DirTree.isMnt : DirTree → Bool
  | .node _ m _ => m

def DirTree.children : DirTree → List (String × DirTree)
  | .node _ _ ch => ch

/-- Relative path string built by `os.path.join(root[len(path):].lstrip('/'), item)`
(src line 175): segments joined with a single slash, no leading slash. -/
def relJoin : List String → String
  | [] => ""
  | [s] => s
  | s :: rest => s ++ "/" ++ relJoin rest

/-- Body of the `for item in dirs` loop of one `os.walk` triple (src lines
167-175): a child is skipped when `_ismount` holds, otherwise recorded when
its inode is 256. -/
def recordTriple (pre : List String) (ch : List (String × DirTree)) :
    List (List String) :=
  ch.filterMap (fun e =>
    if e.2.isMnt then none
    else if e.2.ino = 256 then some (pre ++ [e.1]) else none)

mutual

/-- Records produced by `os.walk` (src lines 165-176) from the subtree rooted
at `t`, whose path relative to the mount root is `pre`: the current triple's
records first, then each non-excluded child subtree in order (mount-point
children are removed from `dirs` in place at line 176 and never recursed
into). -/
def walkSubvols (pre : List String) : DirTree → List (List String)
  | .node _ _ ch => recordTriple pre ch ++ walkKids pre ch

/-- Recursion of `os.walk` into the non-excluded children, in listing order. -/
def walkKids (pre : List String) : List (String × DirTree) → List (List String)
  | [] => []
  | (nm, c) :: rest =>
      (if c.isMnt then [] else walkSubvols (pre ++ [nm]) c) ++ walkKids pre rest

end

/-- Embedding of `get_subvol_list` (src lines 152-178): collect the relative
paths of subvolume roots below the mount root, then `list.sort()` them
(ascending string order). -/
def get_subvol_list (t : DirTree) : List String :=
  List.insertionSort (fun a b : String => a ≤ b) ((walkSubvols [] t).map relJoin)

/-- Specification-side lookup of a named child (directories have unique child
names on a real filesystem). -/
def findTree (ch : List (String × DirTree)) (nm : String) : Option DirTree :=
  match ch with
  | [] => none
  | (k, c) :: rest => if k = nm then some c else findTree rest nm

/-- Specification-side descent along a relative path that refuses to enter (or
end at) a directory that is itself a distinct mount point. -/
def descendNoMount : DirTree → List String → Option DirTree
  | t, [] => some t
  | t, nm :: rest =>
    match findTree t.children nm with
    | none => none
    | some c => if c.isMnt then none else descendNoMount c rest

/-- Pairwise distinctness of a list of names. -/
def namesDistinct : List String → Bool
  | [] => true
  | n :: rest => (decide (n ∉ rest)) && namesDistinct rest

mutual

/-- Uniqueness of child names at every node of the tree (guaranteed on a real
filesystem, where one directory cannot hold two equally named entries). -/
def treeNodup : DirTree → Bool
  | .node _ _ ch => namesDistinct (ch.map Prod.fst) && kidsNodup ch

def kidsNodup : List (String × DirTree) → Bool
  | [] => true
  | (_, c) :: rest => treeNodup c && kidsNodup rest

end


/-! ## ConversionEngine part 1: `copytree` (src lines 194-228)

The tree materializer walks the source with `os.walk('.')` and rebuilds it
under the destination.  File/directory metadata is modelled by `FileMeta`
(mode bits, atime/mtime, owner); `shutil.copystat` transfers mode and
timestamps, `copy_ownership` (src lines 189-192) transfers uid/gid via
`os.chown`.  A freshly created file or directory receives the ambient
`fresh` metadata (umask-derived mode, current timestamps), a parameter of the
embedding.  Symbolic links are not modelled: every claim under verification
quantifies over regular files and directories only. -/

structure FileMeta where
  mode : Nat
  atime : Nat
  mtime : Nat
  uid : Nat
  gid : Nat
deriving DecidableEq, Repr

/-- File-system subtree: regular files with content bytes and metadata, and
directories with metadata and named children in `os.listdir` order. -/
inductive Node where
  | file (content : List Nat) (meta : FileMeta)
  | dir (meta : FileMeta) (children : List (String × Node))
deriving Repr

def Node.metaOf : Node → FileMeta
  | .file _ m => m
  | .dir m _ => m

def isDirN : Node → Bool
  | .dir _ _ => true
  | .file _ _ => false

/-- Subdirectory entries of one `os.walk` triple, in listing order. -/
def dirsOf (ch : List (String × Node)) : List (String × Node) :=
  ch.filter (fun e => isDirN e.2)

/-- Regular-file entries of one `os.walk` triple, in listing order. -/
def filesOf (ch : List (String × Node)) : List (String × Node) :=
  ch.filter (fun e => !(isDirN e.2))

def findNode (ch : List (String × Node)) (nm : String) : Option Node :=
  match ch with
  | [] => none
  | (k, c) :: rest => if k = nm then some c else findNode rest nm

def Node.lookupPath : Node → List String → Option Node
  | n, [] => some n
  | .file _ _, _ :: _ => none
  | .dir _ ch, nm :: rest =>
    match findNode ch nm with
    | none => none
    | some c => c.lookupPath rest

def setEntry (ch : List (String × Node)) (nm : String) (v : Node) :
    List (String × Node) :=
  match ch with
  | [] => [(nm, v)]
  | (k, c) :: rest => if k = nm then (k, v) :: rest else (k, c) :: setEntry rest nm v

/-- Write the node `repl` at path `p` below `n` (create or replace the final
component; intermediate components must exist, as they do for every write
`copytree` performs, since `os.walk` visits parents before children). -/
def Node.setPath : Node → List String → Node → Node
  | _, [], repl => repl
  | .file c m, _ :: _, _ => .file c m
  | .dir m ch, [nm], repl => .dir m (setEntry ch nm repl)
  | .dir m ch, nm :: nm2 :: rest, repl =>
    match findNode ch nm with
    | none => .dir m ch
    | some c => .dir m (setEntry ch nm (c.setPath (nm2 :: rest) repl))

def Node.withMeta : Node → FileMeta → Node
  | .file c _, m => .file c m
  | .dir _ ch, m => .dir m ch

def Node.mapMetaAt (n : Node) (p : List String) (f : FileMeta → FileMeta) : Node :=
  match n.lookupPath p with
  | none => n
  | some sub => n.setPath p (sub.withMeta (f sub.metaOf))

/-- Effect of `shutil.copystat(src, dst)` on dst's metadata: mode bits and
timestamps come from src, ownership is untouched. -/
def copystatMeta (src dst : FileMeta) : FileMeta :=
  FileMeta.mk src.mode src.atime src.mtime dst.uid dst.gid

/-- Effect of `copy_ownership(src, dst)` (src lines 189-192) on dst's
metadata: uid/gid come from src, the rest is untouched. -/
def chownMeta (src dst : FileMeta) : FileMeta :=
  FileMeta.mk dst.mode dst.atime dst.mtime src.uid src.gid

/-- Ambient configuration of one `copytree` run: effective uid, metadata of
freshly created files/directories (umask and clock), per-path reflink
feasibility (`reflink.reflink` raises `ReflinkImpossibleError` exactly on
paths where this is false), and the `method` string argument. -/
structure CTCfg where
  euid : Nat
  fresh : FileMeta
  canReflink : List String → Bool
  method : String

/-- Observable actions of `copytree`, for stating which copy mechanism ran. -/
inductive CTEv where
  | reflinkTry (p : List String)
  | reflinkFallback (p : List String)
  | copyfileEv (p : List String)
  | mkdirEv (p : List String)
deriving DecidableEq, Repr

/-- State threaded through the walk: destination tree under construction, the
current value of the function-scoped loop variables `srcdir`/`destdir` (both
are the same relative path; `none` before the first directory iteration), the
pending exception, and the event list. -/
structure CTState where
  dest : Node
  dv : Option (List String)
  err : Option PyErr
  tr : List CTEv

def applyChownFrom (src : Node) (p : List String) (d : Node) : Node :=
  match src.lookupPath p with
  | none => d
  | some s => d.mapMetaAt p (chownMeta s.metaOf)

def applyCopystatFrom (src : Node) (p : List String) (d : Node) : Node :=
  match src.lookupPath p with
  | none => d
  | some s => d.mapMetaAt p (copystatMeta s.metaOf)

def contentAt (src : Node) (p : List String) : List Nat :=
  match src.lookupPath p with
  | some (Node.file c _) => c
  | _ => []

/-- Body of `for item in dirs` (src lines 206-212): `os.makedirs(destdir)`,
then ownership (under root) and `copystat` onto the new directory; the loop
variables now hold this directory's path. -/
def ctDirStep (cfg : CTCfg) (src : Node) (p : List String) (st : CTState) :
    CTState :=
  if st.err.isSome then st
  else
    let d1 := st.dest.setPath p (Node.dir cfg.fresh [])
    let d2 := if cfg.euid = 0 then applyChownFrom src p d1 else d1
    let d3 := applyCopystatFrom src p d2
    CTState.mk d3 (some p) none (st.tr ++ [CTEv.mkdirEv p])

/-- Body of `for item in files` (src lines 213-227): materialize the file by
reflink (only when `method == 'reflinks'`, falling back to `copyfile` when
the clone is impossible) or by `copyfile`; then lines 225-227 apply ownership
and `copystat` to `srcdir`/`destdir` — the directory-loop variables, not the
file — which is a NameError when no directory iteration has run yet. -/
def ctFileStep (cfg : CTCfg) (src : Node) (p : List String) (st : CTState) :
    CTState :=
  if st.err.isSome then st
  else
    let newFile := Node.file (contentAt src p) cfg.fresh
    let st1 :=
      if cfg.method = "reflinks" then
        if cfg.canReflink p then
          CTState.mk (st.dest.setPath p newFile) st.dv none
            (st.tr ++ [CTEv.reflinkTry p])
        else
          CTState.mk (st.dest.setPath p newFile) st.dv none
            (st.tr ++ [CTEv.reflinkTry p, CTEv.reflinkFallback p, CTEv.copyfileEv p])
      else
        CTState.mk (st.dest.setPath p newFile) st.dv none
          (st.tr ++ [CTEv.copyfileEv p])
    match st1.dv with
    | none => CTState.mk st1.dest st1.dv (some (PyErr.nameError "srcdir")) st1.tr
    | some d =>
      let d2 := if cfg.euid = 0 then applyChownFrom src d st1.dest else st1.dest
      let d3 := applyCopystatFrom src d d2
      CTState.mk d3 st1.dv none st1.tr

/-- Processing of one `os.walk` triple: the dirs loop, then the files loop. -/
def ctTriple (cfg : CTCfg) (src : Node) (rel : List String)
    (ch : List (String × Node)) (st : CTState) : CTState :=
  let st1 := (dirsOf ch).foldl (fun s e => ctDirStep cfg src (rel ++ [e.1]) s) st
  (filesOf ch).foldl (fun s e => ctFileStep cfg src (rel ++ [e.1]) s) st1

mutual

/-- Walk of src lines 205-227: process the triple of the current directory,
then recurse into each subdirectory in order (depth-first, top-down). -/
def ctWalk (cfg : CTCfg) (src : Node) (rel : List String) (n : Node)
    (st : CTState) : CTState :=
  match n with
  | .file _ _ => st
  | .dir _ ch => ctWalkKids cfg src rel ch (ctTriple cfg src rel ch st)

def ctWalkKids (cfg : CTCfg) (src : Node) (rel : List String) :
    List (String × Node) → CTState → CTState
  | [], st => st
  | (nm, c) :: rest, st =>
    let st2 :=
      match c with
      | .file _ _ => st
      | .dir _ _ => ctWalk cfg src (rel ++ [nm]) c st
    ctWalkKids cfg src rel rest st2

end

/-- Result of one `copytree` call (src lines 194-228): the exception it
raised, if any (state changes made before the exception persist), the
destination tree (starting from `destInit`, an empty directory in every call
the program makes), and the copy events. -/
structure CTOut where
  err : Option PyErr
  dest : Node
  tr : List CTEv

/-- Embedding of `copytree(src, dest, method)` (src lines 194-228). -/
def copytree (cfg : CTCfg) (src : Node) (destInit : Node) : CTOut :=
  let st := ctWalk cfg src [] src (CTState.mk destInit none none [])
  CTOut.mk st.err st.dest st.tr

/-! ## ConversionEngine part 2: `convert_dir_to_subv` (src lines 230-274)

The conversion engine is embedded as a function that returns the Python
result (or exception) together with the list of state-changing operations it
performed, in order; `applyOps` is the semantics of that operation list, so
the final filesystem state is the replay of the trace, and the state an
interruption would expose is the replay of a prefix.  The filesystem is a
path-keyed association list: each top-level entry owns a whole subtree
(`Node`) plus the inode number of its root, which is 256 exactly for
subvolume roots.  The external `btrfs subvolume create`/`delete` collaborator
is modelled by the `createOk`/`deleteOk` parameters (success of the CLI call
when its precondition — target absent resp. target an existing subvolume —
holds), and `random.getrandbits` by the `seed` parameter. -/

structure FsEnt where
  ino : Nat
  node : Node
deriving Repr

/-- Path-keyed view of the filesystem around the conversion destination. -/
abbrev FS := List (String × FsEnt)

def fsLookup (fs : FS) (p : String) : Option FsEnt :=
  match fs with
  | [] => none
  | (q, e) :: rest => if q = p then some e else fsLookup rest p

def fsInsert (fs : FS) (p : String) (e : FsEnt) : FS :=
  match fs with
  | [] => [(p, e)]
  | (q, e2) :: rest =>
    if q = p then (q, e) :: rest else (q, e2) :: fsInsert rest p e

def fsRemove (fs : FS) (p : String) : FS :=
  match fs with
  | [] => []
  | (q, e) :: rest => if q = p then rest else (q, e) :: fsRemove rest p

def fsMapEnt (fs : FS) (p : String) (f : FsEnt → FsEnt) : FS :=
  match fs with
  | [] => []
  | (q, e) :: rest => if q = p then (q, f e) :: rest else (q, e) :: fsMapEnt rest p f

/-- State-changing (or attempted) operations of one conversion, in program
order.  `createFail`/`delSubvolFail` record a `btrfs` CLI call that failed
with `CalledProcessError` and changed nothing. -/
inductive Op where
  | touch (p : String) (m : FileMeta)
  | mkSubvol (p : String) (m : FileMeta)
  | createFail (p : String)
  | copystatFs (src dst : String)
  | setTree (p : String) (n : Node)
  | renameFs (src dst : String)
  | chownFs (src dst : String)
  | rmtreeFs (p : String)
  | delSubvol (p : String)
  | delSubvolFail (p : String)
  | unlinkFs (p : String)
deriving Repr

/-- Semantics of one operation.  `touch` is `open(p, 'w+')` (create or
truncate an empty regular file); `mkSubvol` a successful
`btrfs subvolume create`; `copystatFs`/`chownFs` act on the root metadata of
the target entry; `setTree` is the materialization `copytree` performed
inside the (previously empty) target; `renameFs` moves an entry with its
whole subtree and inode; `rmtreeFs`/`delSubvol`/`unlinkFs` remove entries. -/
def applyOp (fs : FS) : Op → FS
  | .touch p m => fsInsert fs p (FsEnt.mk 1 (Node.file [] m))
  | .mkSubvol p m => fsInsert fs p (FsEnt.mk 256 (Node.dir m []))
  | .createFail _ => fs
  | .copystatFs s d =>
    match fsLookup fs s with
    | none => fs
    | some es =>
      fsMapEnt fs d (fun ed => FsEnt.mk ed.ino
        (ed.node.withMeta (copystatMeta es.node.metaOf ed.node.metaOf)))
  | .setTree p n => fsMapEnt fs p (fun ed => FsEnt.mk ed.ino n)
  | .renameFs s d =>
    match fsLookup fs s with
    | none => fs
    | some e => fsInsert (fsRemove fs s) d e
  | .chownFs s d =>
    match fsLookup fs s with
    | none => fs
    | some es =>
      fsMapEnt fs d (fun ed => FsEnt.mk ed.ino
        (ed.node.withMeta (chownMeta es.node.metaOf ed.node.metaOf)))
  | .rmtreeFs p => fsRemove fs p
  | .delSubvol p => fsRemove fs p
  | .delSubvolFail _ => fs
  | .unlinkFs p => fsRemove fs p

def applyOps (fs : FS) (ops : List Op) : FS := ops.foldl applyOp fs

/-- Configuration of one conversion: effective uid, ambient fresh-file
metadata, reflink feasibility, `method` argument, success of the external
`btrfs subvolume create`/`delete` calls, and the random suffix. -/
structure ConvCfg where
  euid : Nat
  fresh : FileMeta
  canReflink : List String → Bool
  method : String
  createOk : Bool
  deleteOk : Bool
  seed : String

/-- Embedding of `gen_rand_subvolpath` (src lines 180-187) with the base64
suffix of `random.getrandbits(64)` supplied as `seed`:
`os.path.join(path, '.' + subvol + '.' + seed)`. -/
def gen_rand_subvolpath (path subvol seed : String) : String :=
  path ++ "/." ++ subvol ++ "." ++ seed

def nodeAt (fs : FS) (p : String) : Node :=
  match fsLookup fs p with
  | some e => e.node
  | none => Node.dir (FileMeta.mk 0 0 0 0 0) []

/-- Body of the `try` block at src lines 258-267: save the destination's stat
into the placeholder, materialize with `copytree`, the two renames, reapply
stat (and ownership under root) to the new root, delete the backup tree.  A
`copytree` exception propagates after its partial writes; `os.rename` onto an
existing backup path is an OSError (the model requires the rename target to
be absent, which holds in every reachable state with distinct special
names). -/
def convertBody (cfg : ConvCfg) (fs2 : FS)
    (dest temppath copypath oldpath : String) : Except PyErr Bool × List Op :=
  let ct := copytree (CTCfg.mk cfg.euid cfg.fresh cfg.canReflink cfg.method)
    (nodeAt fs2 dest) (Node.dir cfg.fresh [])
  let o2 : List Op := [Op.copystatFs dest copypath, Op.setTree temppath ct.dest]
  match ct.err with
  | some e => (Except.error e, o2)
  | none =>
    if (fsLookup (applyOps fs2 o2) oldpath).isSome then
      (Except.error (PyErr.osError ("rename to backup path failed: " ++ oldpath)), o2)
    else
      let o5 := o2 ++ [Op.renameFs dest oldpath, Op.renameFs temppath dest,
        Op.copystatFs copypath dest]
      let o6 := if cfg.euid = 0 then o5 ++ [Op.chownFs oldpath dest] else o5
      (Except.ok true, o6 ++ [Op.rmtreeFs oldpath])

/-- Embedding of the `finally` block at src lines 268-273: run
`btrfs subvolume delete temppath` first — it succeeds only when `temppath`
still exists as a subvolume and the external call succeeds — then
`os.unlink(copypath)`, which is reached only when the delete succeeded
because a `CalledProcessError` jumps to the `except` clause; only
`CalledProcessError` is caught, so an `OSError` from `unlink` would
propagate out of the `finally`. -/
def convertCleanup (cfg : ConvCfg) (fsB : FS) (temppath copypath : String) :
    Except PyErr Unit × List Op :=
  match fsLookup fsB temppath with
  | some e =>
    if e.ino == 256 && cfg.deleteOk then
      if (fsLookup (applyOp fsB (Op.delSubvol temppath)) copypath).isSome then
        (Except.ok (), [Op.delSubvol temppath, Op.unlinkFs copypath])
      else
        (Except.error (PyErr.fileNotFound copypath), [Op.delSubvol temppath])
    else
      (Except.ok (), [Op.delSubvolFail temppath])
  | none => (Except.ok (), [Op.delSubvolFail temppath])

/-- Embedding of `convert_dir_to_subv(dest, method)` (src lines 230-274),
with `dest` given by its `os.path.split` decomposition `parent`/`base`.
Returns the Python result and the operation trace; the final filesystem state
is `applyOps fs0` of that trace (see `convertRun`).  The placeholder file is
created (line 252) before the `btrfs subvolume create` attempt (line 255),
and the create-failure `raise` at line 257 happens outside the
`try`/`finally`, so no cleanup runs on that path.  The `finally` result
replaces the body's result only when the cleanup itself raises. -/
def convert_dir_to_subv (cfg : ConvCfg) (fs0 : FS) (parent base : String) :
    Except PyErr Bool × List Op :=
  let dest := parent ++ "/" ++ base
  match fsLookup fs0 dest with
  | none =>
    (Except.error (PyErr.osError
      ("Subvolume destination exists and is not a directory:" ++ base)), [])
  | some e =>
    match e.node with
    | Node.file _ _ =>
      (Except.error (PyErr.osError
        ("Subvolume destination exists and is not a directory:" ++ base)), [])
    | Node.dir _ _ =>
      if e.ino == 256 then (Except.ok true, [])
      else
        let temppath := gen_rand_subvolpath parent base cfg.seed
        let copypath := parent ++ "/.btrfs-subv-backup.tmp"
        let oldpath := parent ++ "/.btrfs-subv-backup.old"
        let ops1 : List Op := [Op.touch copypath cfg.fresh]
        if !(cfg.createOk && (fsLookup (applyOps fs0 ops1) temppath).isNone) then
          (Except.error (PyErr.osError
            ("Unable to create temporary subvolume:" ++ base)),
            ops1 ++ [Op.createFail temppath])
        else
          let ops2 := ops1 ++ [Op.mkSubvol temppath cfg.fresh]
          let fs2 := applyOps fs0 ops2
          let body := convertBody cfg fs2 dest temppath copypath oldpath
          let cl := convertCleanup cfg (applyOps fs2 body.2) temppath copypath
          let opsAll := ops2 ++ body.2 ++ cl.2
          match cl.1 with
          | Except.error ec => (Except.error ec, opsAll)
          | Except.ok _ => (body.1, opsAll)

/-- Result and final filesystem state of one conversion call: the replay of
the operation trace from the initial state. -/
def convertRun (cfg : ConvCfg) (fs0 : FS) (parent base : String) :
    Except PyErr Bool × FS :=
  let r := convert_dir_to_subv cfg fs0 parent base
  (r.1, applyOps fs0 r.2)

def fsKeys (fs : FS) : List String := fs.map Prod.fst

def exScanTree : DirTree :=
  DirTree.node 256 true
    [("home", DirTree.node 256 false []),
     ("var", DirTree.node 17 false
        [("log", DirTree.node 256 false []),
         ("cache", DirTree.node 256 true [("x", DirTree.node 256 false [])])])]

def c4cfg : ConvCfg :=
  ConvCfg.mk 0 (FileMeta.mk 438 5 5 0 0) (fun _ => true) "copy" false true "SEED"

def c4fs : FS := [("/mnt/d", FsEnt.mk 77 (Node.dir (FileMeta.mk 493 9 9 0 0) []))]


/-- Fixture: ambient metadata of freshly created files (umask 0o022 mode
0o666, clock value 5 — distinct from every source timestamp below). -/
def exFresh : FileMeta := FileMeta.mk 438 5 5 0 0

/-- Fixture: metadata of the source file `a` (mode 0o644, mtime 1000). -/
def exMetaA : FileMeta := FileMeta.mk 420 1000 1000 1000 1000

/-- Fixture: a source directory holding a subdirectory `sub` and a regular
file `a`, the content-preservation scenario of the specification. -/
def exCopySrc : Node := Node.dir (FileMeta.mk 493 3000 3000 0 0)
  [("sub", Node.dir (FileMeta.mk 448 2000 2000 0 0) []),
   ("a", Node.file [7, 8] exMetaA)]

/-- Embedding of the method-resolution tail of `parse_args` (src lines
316-327).  In restore mode with method `reflink`: when the `reflink` import
failed, evaluating the bare name `reflink` (line 318) raises NameError; when
the import succeeded, `reflink in dir()` compares the module object against
the list of local variable name strings returned by `dir()`, which is never
true, so the method silently falls back to `copy`. -/
def parse_args_method (mode method : String) (reflinkImported : Bool) :
    Except PyErr String :=
  if mode = "restore" then
    if method = "reflink" then
      if reflinkImported then Except.ok "copy"
      else Except.error (PyErr.nameError "reflink")
    else if method = "copy" then Except.ok "copy"
    else Except.error (PyErr.exceptionErr ("Unknown restore method " ++ method))
  else Except.ok method


def c10fs : FS :=
  [("/mnt/d", FsEnt.mk 77 (Node.dir (FileMeta.mk 493 9 9 0 0)
    [("a", Node.file [1, 2] (FileMeta.mk 420 7 7 0 0))]))]

def c10cfg : ConvCfg :=
  ConvCfg.mk 0 (FileMeta.mk 438 5 5 0 0) (fun _ => true) "copy" true true "SEED"


/-- Keys whose binding `applyOp` may change (used to carry lookups across
operations that touch only other paths). -/
def opWrites : Op → List String
  | .touch p _ => [p]
  | .mkSubvol p _ => [p]
  | .createFail _ => []
  | .copystatFs _ d => [d]
  | .setTree p _ => [p]
  | .renameFs s d => [s, d]
  | .chownFs _ d => [d]
  | .rmtreeFs p => [p]
  | .delSubvol p => [p]
  | .delSubvolFail _ => []
  | .unlinkFs p => [p]

/-- An attempted `btrfs subvolume delete`, successful or not. -/
def isDelAttempt : Op → Bool
  | .delSubvol _ => true
  | .delSubvolFail _ => true
  | _ => false

def isUnlinkOp : Op → Bool
  | .unlinkFs _ => true
  | _ => false

def isRenameOp : Op → Bool
  | .renameFs _ _ => true
  | _ => false

/-- Operation trace of a conversion whose protocol body succeeds: placeholder
creation, temp-subvolume creation, stat snapshot, materialization, the two
renames, metadata reapplication (ownership only under root), backup deletion,
and the cleanup's failed temp-subvolume delete attempt (the temporary name no
longer exists), which skips the placeholder unlink. -/
def convertOpsSuccess (cfg : ConvCfg) (parent base : String) (ctdest : Node) :
    List Op :=
  [Op.touch (parent ++ "/.btrfs-subv-backup.tmp") cfg.fresh,
   Op.mkSubvol (gen_rand_subvolpath parent base cfg.seed) cfg.fresh,
   Op.copystatFs (parent ++ "/" ++ base) (parent ++ "/.btrfs-subv-backup.tmp"),
   Op.setTree (gen_rand_subvolpath parent base cfg.seed) ctdest,
   Op.renameFs (parent ++ "/" ++ base) (parent ++ "/.btrfs-subv-backup.old"),
   Op.renameFs (gen_rand_subvolpath parent base cfg.seed) (parent ++ "/" ++ base),
   Op.copystatFs (parent ++ "/.btrfs-subv-backup.tmp") (parent ++ "/" ++ base)]
  ++ (if cfg.euid = 0 then
        [Op.chownFs (parent ++ "/.btrfs-subv-backup.old") (parent ++ "/" ++ base)]
      else [])
  ++ [Op.rmtreeFs (parent ++ "/.btrfs-subv-backup.old"),
      Op.delSubvolFail (gen_rand_subvolpath parent base cfg.seed)]


/-- Fixture: a mount directory holding the ordinary directory `/mnt/d` (inode
77, one subdirectory) to be converted in place. -/
def exConvFs : FS :=
  [("/mnt/d", FsEnt.mk 77 (Node.dir (FileMeta.mk 493 9 9 100 100)
    [("sub", Node.dir (FileMeta.mk 448 2 2 0 0) [])]))]

/-- Fixture: conversion configuration — running as root, copy method, both
external btrfs calls functional, fixed random suffix. -/
def exConvCfg : ConvCfg :=
  ConvCfg.mk 0 (FileMeta.mk 438 5 5 0 0) (fun _ => true) "copy" true true "SEED"


/-- Embedding of the restore branch of `main` (src lines 339-347), chained
after the `parse_args` method resolution for restore mode.  `get_fs_info`
runs first (line 340); then line 341 evaluates the bare name `verbose`,
which is bound neither in `main` nor at module scope (every other branch
spells it `args.verbose`), so Python raises
`NameError: name 'verbose' is not defined` before the snapshot file is even
opened: the `subvolumes` list is never read, never sorted, and
`restore_subvol` is never invoked, whatever the snapshot contains. -/
def mainRestore (path : String) (mounts : List MntEnt)
    (blk : Option (String × String)) (methodArg : String)
    (reflinkImported : Bool) (_snapshot : List String) : Except PyErr Unit :=
  match parse_args_method "restore" methodArg reflinkImported with
  | Except.error e => Except.error e
  | Except.ok _ =>
    match get_fs_info path mounts blk with
    | Except.error e => Except.error e
    | Except.ok _ => Except.error (PyErr.nameError "verbose")


/-! ## Theorems -/

/-- Claim C9, counterexample: a mount-table entry at the requested path with
filesystem type `ext4` produces exactly the same error value (same exception
type, same message) as an empty mount table, so the not-mounted and
wrong-filesystem failure conditions are not distinguishable. -/
theorem c9_counterexample :
    get_fs_info "/mnt" [MntEnt.mk "/dev/sda1" "/mnt" "ext4" "rw"] none
      = Except.error (PyErr.valueError
          "/mnt is not a mountpoint, or is not a BTRFS filesystem.") ∧
    get_fs_info "/mnt" ([] : List MntEnt) none
      = Except.error (PyErr.valueError
          "/mnt is not a mountpoint, or is not a BTRFS filesystem.") := by
  constructor <;> rfl

/-- Claim C9, amended: resolution fails with one combined ValueError (a single
message covering both the not-mounted and the wrong-filesystem-type cases)
when no mount-table entry has both mount path equal to the input and
filesystem type btrfs, and with a distinct ValueError message when the matched
entry's options contain no subvolume-id key; only these two error forms are
distinguishable. -/
theorem c9_amended_thm (path : String) (mounts : List MntEnt)
    (blk : Option (String × String)) (ent : MntEnt) (sv : Option String) :
    ((mounts.find? (fun e => e.fstype == "btrfs" && e.mntPath == path)) = none →
      get_fs_info path mounts blk
        = Except.error (PyErr.valueError
            (path ++ " is not a mountpoint, or is not a BTRFS filesystem."))) ∧
    ((mounts.find? (fun e => e.fstype == "btrfs" && e.mntPath == path)) = some ent →
      parseOptsLoop (none, none) (pySplitComma ent.opts) = Except.ok (none, sv) →
      get_fs_info path mounts blk
        = Except.error (PyErr.valueError
            ("Unable to determine mounted subvolume ID for " ++ path))) := by
  constructor
  · intro h
    simp [get_fs_info, h]
  · intro h hopts
    simp [get_fs_info, h, hopts]

/-- Witness for `c9_amended_thm` at a concrete mount table. -/
theorem c9_amended_witness :
    (([MntEnt.mk "/dev/sda1" "/mnt" "ext4" "rw"].find?
        (fun e => e.fstype == "btrfs" && e.mntPath == "/mnt")) = none →
      get_fs_info "/mnt" [MntEnt.mk "/dev/sda1" "/mnt" "ext4" "rw"] none
        = Except.error (PyErr.valueError
            ("/mnt" ++ " is not a mountpoint, or is not a BTRFS filesystem."))) ∧
    (([MntEnt.mk "/dev/sda1" "/mnt" "ext4" "rw"].find?
        (fun e => e.fstype == "btrfs" && e.mntPath == "/mnt"))
          = some (MntEnt.mk "/dev/sda2" "/mnt" "btrfs" "rw,noatime") →
      parseOptsLoop (none, none)
          (pySplitComma (MntEnt.mk "/dev/sda2" "/mnt" "btrfs" "rw,noatime").opts)
        = Except.ok (none, none) →
      get_fs_info "/mnt" [MntEnt.mk "/dev/sda1" "/mnt" "ext4" "rw"] none
        = Except.error (PyErr.valueError
            ("Unable to determine mounted subvolume ID for " ++ "/mnt"))) :=
  c9_amended_thm "/mnt" [MntEnt.mk "/dev/sda1" "/mnt" "ext4" "rw"] none
    (MntEnt.mk "/dev/sda2" "/mnt" "btrfs" "rw,noatime") none

theorem mem_recordTriple {pre q : List String} {ch : List (String × DirTree)} :
    q ∈ recordTriple pre ch ↔
      ∃ nm c, (nm, c) ∈ ch ∧ c.isMnt = false ∧ c.ino = 256 ∧ q = pre ++ [nm] := by
  simp only [recordTriple, List.mem_filterMap]
  constructor
  · rintro ⟨⟨nm, c⟩, hmem, hf⟩
    by_cases h1 : c.isMnt
    · simp [h1] at hf
    · by_cases h2 : c.ino = 256
      · refine ⟨nm, c, hmem, by simpa using h1, h2, ?_⟩
        simp only [h1, h2, if_false, if_true, Bool.false_eq_true] at hf
        simp at hf
        exact hf.symm
      · simp [h1, h2] at hf
  · rintro ⟨nm, c, hmem, h1, h2, rfl⟩
    exact ⟨(nm, c), hmem, by simp [h1, h2]⟩

theorem mem_walkKids {pre q : List String} {ch : List (String × DirTree)} :
    q ∈ walkKids pre ch ↔
      ∃ nm c, (nm, c) ∈ ch ∧ c.isMnt = false ∧ q ∈ walkSubvols (pre ++ [nm]) c := by
  induction ch with
  | nil => simp [walkKids]
  | cons e rest ih =>
    obtain ⟨nm, c⟩ := e
    rw [walkKids, List.mem_append, ih]
    by_cases h : c.isMnt
    · simp only [h, if_true]
      constructor
      · rintro (habs | ⟨nm2, c2, hm2, hmnt2, hw2⟩)
        · simp at habs
        · exact ⟨nm2, c2, List.mem_cons_of_mem _ hm2, hmnt2, hw2⟩
      · rintro ⟨nm2, c2, hm2, hmnt2, hw2⟩
        rcases List.mem_cons.mp hm2 with heq | hm2'
        · cases heq; simp [h] at hmnt2
        · exact Or.inr ⟨nm2, c2, hm2', hmnt2, hw2⟩
    · simp only [h, if_false]
      constructor
      · rintro (hw | ⟨nm2, c2, hm2, hmnt2, hw2⟩)
        · exact ⟨nm, c, List.mem_cons_self .., by simpa using h, hw⟩
        · exact ⟨nm2, c2, List.mem_cons_of_mem _ hm2, hmnt2, hw2⟩
      · rintro ⟨nm2, c2, hm2, hmnt2, hw2⟩
        rcases List.mem_cons.mp hm2 with heq | hm2'
        · cases heq; exact Or.inl hw2
        · exact Or.inr ⟨nm2, c2, hm2', hmnt2, hw2⟩

theorem findTree_eq_of_mem {ch : List (String × DirTree)} {nm : String} {c : DirTree}
    (hnd : namesDistinct (ch.map Prod.fst) = true) (hmem : (nm, c) ∈ ch) :
    findTree ch nm = some c := by
  induction ch with
  | nil => simp at hmem
  | cons e rest ih =>
    obtain ⟨k, d⟩ := e
    simp only [List.map_cons, namesDistinct, Bool.and_eq_true, decide_eq_true_eq] at hnd
    rcases List.mem_cons.mp hmem with heq | hmem'
    · cases heq
      simp [findTree]
    · have hk : k ≠ nm := by
        intro hkk
        subst hkk
        exact hnd.1 (List.mem_map_of_mem Prod.fst hmem')
      simp [findTree, hk, ih hnd.2 hmem']

theorem mem_of_findTree {ch : List (String × DirTree)} {nm : String} {c : DirTree}
    (h : findTree ch nm = some c) : (nm, c) ∈ ch := by
  induction ch with
  | nil => simp [findTree] at h
  | cons e rest ih =>
    obtain ⟨k, d⟩ := e
    by_cases hk : k = nm
    · subst hk
      simp [findTree] at h
      subst h
      exact List.mem_cons_self ..
    · simp [findTree, hk] at h
      exact List.mem_cons_of_mem _ (ih h)

theorem kidsNodup_mem {ch : List (String × DirTree)} {nm : String} {c : DirTree}
    (h : kidsNodup ch = true) (hm : (nm, c) ∈ ch) : treeNodup c = true := by
  induction ch with
  | nil => simp at hm
  | cons e rest ih =>
    obtain ⟨k, d⟩ := e
    rw [kidsNodup, Bool.and_eq_true] at h
    rcases List.mem_cons.mp hm with heq | hm'
    · cases heq; exact h.1
    · exact ih h.2 hm'

theorem mem_walkSubvols_aux : ∀ (n : Nat) (t : DirTree), sizeOf t ≤ n →
    treeNodup t = true → ∀ (pre q : List String),
    (q ∈ walkSubvols pre t ↔
      ∃ suf, suf ≠ [] ∧ q = pre ++ suf ∧
        ∃ c, descendNoMount t suf = some c ∧ c.ino = 256) := by
  intro n
  induction n with
  | zero =>
    intro t ht
    obtain ⟨i, m, ch⟩ := t
    simp [DirTree.node.sizeOf_spec] at ht
  | succ n ih =>
    intro t ht hnd pre q
    obtain ⟨i, m, ch⟩ := t
    rw [treeNodup, Bool.and_eq_true] at hnd
    simp only [DirTree.node.sizeOf_spec] at ht
    rw [walkSubvols, List.mem_append, mem_recordTriple, mem_walkKids]
    constructor
    · rintro (⟨nm, c, hmem, hmnt, hino, rfl⟩ | ⟨nm, c, hmem, hmnt, hw⟩)
      · refine ⟨[nm], by simp, rfl, c, ?_, hino⟩
        simp [descendNoMount, DirTree.children, findTree_eq_of_mem hnd.1 hmem, hmnt]
      · have hc := kidsNodup_mem hnd.2 hmem
        have hsz : sizeOf c ≤ n := by
          have hx := List.sizeOf_lt_of_mem hmem
          simp only [Prod.mk.sizeOf_spec] at hx
          omega
        obtain ⟨suf, hne, rfl, c2, hd, hino⟩ :=
          (ih c hsz hc (pre ++ [nm]) q).mp hw
        refine ⟨nm :: suf, by simp, by simp, c2, ?_, hino⟩
        simp [descendNoMount, DirTree.children, findTree_eq_of_mem hnd.1 hmem, hmnt, hd]
    · rintro ⟨suf, hne, rfl, c2, hd, hino⟩
      cases suf with
      | nil => exact absurd rfl hne
      | cons nm rest =>
        rw [descendNoMount] at hd
        cases hf : findTree (DirTree.node i m ch).children nm with
        | none => rw [hf] at hd; simp at hd
        | some c =>
          rw [hf] at hd
          by_cases hmnt : c.isMnt
          · simp [hmnt] at hd
          · simp only [hmnt, if_false, Bool.false_eq_true] at hd
            have hmem := mem_of_findTree (show findTree ch nm = some c by
              simpa [DirTree.children] using hf)
            cases rest with
            | nil =>
              left
              rw [descendNoMount] at hd
              injection hd with hcc
              subst hcc
              exact ⟨nm, c, hmem, by simpa using hmnt, hino, rfl⟩
            | cons b bs =>
              right
              have hc := kidsNodup_mem hnd.2 hmem
              have hsz : sizeOf c ≤ n := by
                have hx := List.sizeOf_lt_of_mem hmem
                simp only [Prod.mk.sizeOf_spec] at hx
                omega
              refine ⟨nm, c, hmem, by simpa using hmnt,
                (ih c hsz hc (pre ++ [nm]) (pre ++ nm :: b :: bs)).mpr
                  ⟨b :: bs, by simp, by simp, c2, hd, hino⟩⟩

theorem mem_walkSubvols (t : DirTree) (hnd : treeNodup t = true)
    (pre q : List String) :
    q ∈ walkSubvols pre t ↔
      ∃ suf, suf ≠ [] ∧ q = pre ++ suf ∧
        ∃ c, descendNoMount t suf = some c ∧ c.ino = 256 :=
  mem_walkSubvols_aux (sizeOf t) t le_rfl hnd pre q

theorem c7_scanner_correct (t : DirTree) (hnd : treeNodup t = true) :
    List.Sorted (fun a b : String => a ≤ b) (get_subvol_list t) ∧
    ∀ s : String, (s ∈ get_subvol_list t ↔
      ∃ segs : List String, segs ≠ [] ∧ s = relJoin segs ∧
        ∃ c, descendNoMount t segs = some c ∧ c.ino = 256) := by
  constructor
  · exact List.sorted_insertionSort _ _
  · intro s
    rw [get_subvol_list, List.mem_insertionSort, List.mem_map]
    constructor
    · rintro ⟨segs, hmem, rfl⟩
      obtain ⟨suf, hne, heq, c, hd, hino⟩ := (mem_walkSubvols t hnd [] segs).mp hmem
      exact ⟨suf, hne, by rw [heq]; simp, c, hd, hino⟩
    · rintro ⟨segs, hne, rfl, c, hd, hino⟩
      exact ⟨segs, (mem_walkSubvols t hnd [] segs).mpr ⟨segs, hne, by simp, c, hd, hino⟩, rfl⟩

theorem c7_scanner_correct_witness :
    treeNodup exScanTree = true ∧
    (List.Sorted (fun a b : String => a ≤ b) (get_subvol_list exScanTree) ∧
     ∀ s : String, (s ∈ get_subvol_list exScanTree ↔
       ∃ segs : List String, segs ≠ [] ∧ s = relJoin segs ∧
         ∃ c, descendNoMount exScanTree segs = some c ∧ c.ino = 256)) :=
  ⟨by decide, c7_scanner_correct exScanTree (by decide)⟩

theorem fsLookup_fsInsert_self (fs : FS) (p : String) (e : FsEnt) :
    fsLookup (fsInsert fs p e) p = some e := by
  induction fs with
  | nil => simp [fsInsert, fsLookup]
  | cons x rest ih =>
    obtain ⟨q, e2⟩ := x
    simp only [fsInsert]
    by_cases h : q = p
    · subst h
      simp [fsLookup]
    · rw [if_neg h]
      simp only [fsLookup]
      rw [if_neg h, ih]

theorem fsLookup_fsInsert_ne (fs : FS) (p q : String) (e : FsEnt) (h : q ≠ p) :
    fsLookup (fsInsert fs p e) q = fsLookup fs q := by
  induction fs with
  | nil =>
    simp only [fsInsert, fsLookup]
    rw [if_neg (fun hh => h hh.symm)]
  | cons x rest ih =>
    obtain ⟨k, e2⟩ := x
    simp only [fsInsert]
    by_cases hk : k = p
    · subst hk
      rw [if_pos rfl]
      simp only [fsLookup]
      rw [if_neg (fun hh => h hh.symm), if_neg (fun hh => h hh.symm)]
    · rw [if_neg hk]
      simp only [fsLookup]
      by_cases hq : k = q
      · rw [if_pos hq, if_pos hq]
      · rw [if_neg hq, if_neg hq, ih]

theorem fsLookup_fsRemove_ne (fs : FS) (p q : String) (h : q ≠ p) :
    fsLookup (fsRemove fs p) q = fsLookup fs q := by
  induction fs with
  | nil => rfl
  | cons x rest ih =>
    obtain ⟨k, e2⟩ := x
    simp only [fsRemove]
    by_cases hk : k = p
    · subst hk
      rw [if_pos rfl]
      simp only [fsLookup]
      rw [if_neg (fun hh => h hh.symm)]
    · rw [if_neg hk]
      simp only [fsLookup]
      by_cases hq : k = q
      · rw [if_pos hq, if_pos hq]
      · rw [if_neg hq, if_neg hq, ih]

theorem fsLookup_fsMapEnt_ne (fs : FS) (p q : String) (f : FsEnt → FsEnt)
    (h : q ≠ p) : fsLookup (fsMapEnt fs p f) q = fsLookup fs q := by
  induction fs with
  | nil => rfl
  | cons x rest ih =>
    obtain ⟨k, e2⟩ := x
    simp only [fsMapEnt]
    by_cases hk : k = p
    · subst hk
      rw [if_pos rfl]
      simp only [fsLookup]
      rw [if_neg (fun hh => h hh.symm), if_neg (fun hh => h hh.symm)]
    · rw [if_neg hk]
      simp only [fsLookup]
      by_cases hq : k = q
      · rw [if_pos hq, if_pos hq]
      · rw [if_neg hq, if_neg hq, ih]

theorem fsLookup_fsMapEnt_self (fs : FS) (p : String) (f : FsEnt → FsEnt) :
    fsLookup (fsMapEnt fs p f) p = (fsLookup fs p).map f := by
  induction fs with
  | nil => rfl
  | cons x rest ih =>
    obtain ⟨k, e2⟩ := x
    simp only [fsMapEnt]
    by_cases hk : k = p
    · subst hk
      rw [if_pos rfl]
      simp [fsLookup]
    · rw [if_neg hk]
      simp only [fsLookup]
      rw [if_neg hk, if_neg hk, ih]

theorem fsLookup_eq_none_of_not_mem (fs : FS) (p : String)
    (h : p ∉ fsKeys fs) : fsLookup fs p = none := by
  induction fs with
  | nil => rfl
  | cons x rest ih =>
    obtain ⟨k, e⟩ := x
    simp only [fsKeys, List.map_cons, List.mem_cons] at h
    push_neg at h
    simp only [fsLookup]
    rw [if_neg (fun hh => h.1 hh.symm)]
    exact ih (by simpa [fsKeys] using h.2)

theorem fsKeys_fsRemove_sublist (fs : FS) (p : String) :
    (fsKeys (fsRemove fs p)).Sublist (fsKeys fs) := by
  induction fs with
  | nil => exact List.Sublist.refl _
  | cons x rest ih =>
    obtain ⟨k, e⟩ := x
    simp only [fsRemove]
    by_cases hk : k = p
    · rw [if_pos hk]
      exact (List.sublist_cons_self _ _)
    · rw [if_neg hk]
      simp only [fsKeys, List.map_cons]
      exact List.Sublist.cons₂ _ ih

theorem fsKeys_nodup_fsRemove (fs : FS) (p : String)
    (h : (fsKeys fs).Nodup) : (fsKeys (fsRemove fs p)).Nodup :=
  h.sublist (fsKeys_fsRemove_sublist fs p)

theorem fsLookup_fsRemove_self (fs : FS) (p : String)
    (h : (fsKeys fs).Nodup) : fsLookup (fsRemove fs p) p = none := by
  induction fs with
  | nil => rfl
  | cons x rest ih =>
    obtain ⟨k, e⟩ := x
    simp only [fsKeys, List.map_cons, List.nodup_cons] at h
    simp only [fsRemove]
    by_cases hk : k = p
    · subst hk
      rw [if_pos rfl]
      exact fsLookup_eq_none_of_not_mem rest k h.1
    · rw [if_neg hk]
      simp only [fsLookup]
      rw [if_neg hk]
      exact ih h.2

theorem fsKeys_fsMapEnt (fs : FS) (p : String) (f : FsEnt → FsEnt) :
    fsKeys (fsMapEnt fs p f) = fsKeys fs := by
  induction fs with
  | nil => rfl
  | cons x rest ih =>
    obtain ⟨k, e⟩ := x
    simp only [fsMapEnt]
    by_cases hk : k = p
    · rw [if_pos hk]
      simp [fsKeys]
    · rw [if_neg hk]
      simp only [fsKeys, List.map_cons] at ih ⊢
      rw [ih]

theorem mem_fsKeys_fsInsert {fs : FS} {p x : String} {e : FsEnt}
    (h : x ∈ fsKeys (fsInsert fs p e)) : x ∈ fsKeys fs ∨ x = p := by
  induction fs with
  | nil => simpa [fsInsert, fsKeys] using h
  | cons y rest ih =>
    obtain ⟨k, e2⟩ := y
    simp only [fsInsert] at h
    by_cases hk : k = p
    · rw [if_pos hk] at h
      simp only [fsKeys, List.map_cons, List.mem_cons] at h ⊢
      rcases h with h | h
      · right; rw [hk] at h; exact h
      · left; right; exact h
    · rw [if_neg hk] at h
      simp only [fsKeys, List.map_cons, List.mem_cons] at h ⊢
      rcases h with h | h
      · left; left; exact h
      · rcases ih h with h2 | h2
        · left; right; exact h2
        · right; exact h2

theorem fsKeys_nodup_fsInsert (fs : FS) (p : String) (e : FsEnt)
    (h : (fsKeys fs).Nodup) : (fsKeys (fsInsert fs p e)).Nodup := by
  induction fs with
  | nil => simp [fsInsert, fsKeys]
  | cons x rest ih =>
    obtain ⟨k, e2⟩ := x
    simp only [fsKeys, List.map_cons, List.nodup_cons] at h
    simp only [fsInsert]
    by_cases hk : k = p
    · rw [if_pos hk]
      simp only [fsKeys, List.map_cons, List.nodup_cons]
      exact ⟨h.1, h.2⟩
    · rw [if_neg hk]
      simp only [fsKeys, List.map_cons, List.nodup_cons]
      refine ⟨?_, ih h.2⟩
      intro hmem
      rcases mem_fsKeys_fsInsert hmem with h2 | h2
      · exact h.1 h2
      · exact hk h2

theorem c2_convert_idempotent (cfg : ConvCfg) (fs0 : FS) (parent base : String)
    (e : FsEnt) (hlook : fsLookup fs0 (parent ++ "/" ++ base) = some e)
    (hdir : isDirN e.node = true) (hino : e.ino = 256) :
    convert_dir_to_subv cfg fs0 parent base = (Except.ok true, []) ∧
    convertRun cfg fs0 parent base = (Except.ok true, fs0) := by
  have h1 : convert_dir_to_subv cfg fs0 parent base = (Except.ok true, []) := by
    simp only [convert_dir_to_subv]
    rw [hlook]
    cases hn : e.node with
    | file c m => rw [hn] at hdir; simp [isDirN] at hdir
    | dir m ch => simp [hn, hino]
  refine ⟨h1, ?_⟩
  unfold convertRun
  rw [h1]
  rfl

theorem c2_convert_idempotent_witness :
    fsLookup [("/mnt/d", FsEnt.mk 256 (Node.dir (FileMeta.mk 493 9 9 0 0) []))]
        ("/mnt" ++ "/" ++ "d")
      = some (FsEnt.mk 256 (Node.dir (FileMeta.mk 493 9 9 0 0) [])) ∧
    isDirN (FsEnt.mk 256 (Node.dir (FileMeta.mk 493 9 9 0 0) [])).node = true ∧
    (FsEnt.mk 256 (Node.dir (FileMeta.mk 493 9 9 0 0) [])).ino = 256 ∧
    (convert_dir_to_subv (ConvCfg.mk 0 (FileMeta.mk 438 5 5 0 0) (fun _ => true)
          "copy" true true "SEED")
        [("/mnt/d", FsEnt.mk 256 (Node.dir (FileMeta.mk 493 9 9 0 0) []))]
        "/mnt" "d" = (Except.ok true, []) ∧
     convertRun (ConvCfg.mk 0 (FileMeta.mk 438 5 5 0 0) (fun _ => true)
          "copy" true true "SEED")
        [("/mnt/d", FsEnt.mk 256 (Node.dir (FileMeta.mk 493 9 9 0 0) []))]
        "/mnt" "d"
       = (Except.ok true,
          [("/mnt/d", FsEnt.mk 256 (Node.dir (FileMeta.mk 493 9 9 0 0) []))])) :=
  ⟨rfl, rfl, rfl,
    c2_convert_idempotent _ _ "/mnt" "d" _ rfl rfl rfl⟩

theorem c4_counterexample :
    (convertRun c4cfg c4fs "/mnt" "d").1
      = Except.error (PyErr.osError "Unable to create temporary subvolume:d") ∧
    fsLookup (convertRun c4cfg c4fs "/mnt" "d").2 "/mnt/.btrfs-subv-backup.tmp"
      = some (FsEnt.mk 1 (Node.file [] (FileMeta.mk 438 5 5 0 0))) ∧
    fsLookup c4fs "/mnt/.btrfs-subv-backup.tmp" = none ∧
    (convertRun c4cfg c4fs "/mnt" "d").2 ≠ c4fs := by
  refine ⟨rfl, rfl, rfl, ?_⟩
  intro hcontra
  have h1 : fsLookup (convertRun c4cfg c4fs "/mnt" "d").2
      "/mnt/.btrfs-subv-backup.tmp"
      = some (FsEnt.mk 1 (Node.file [] (FileMeta.mk 438 5 5 0 0))) := rfl
  rw [hcontra] at h1
  exact Option.noConfusion h1

theorem c4_amended_thm (cfg : ConvCfg) (fs0 : FS) (parent base : String)
    (e : FsEnt) (hlook : fsLookup fs0 (parent ++ "/" ++ base) = some e)
    (hdir : isDirN e.node = true) (hino : e.ino ≠ 256)
    (hfail : (cfg.createOk &&
      (fsLookup (applyOps fs0 [Op.touch (parent ++ "/.btrfs-subv-backup.tmp") cfg.fresh])
        (gen_rand_subvolpath parent base cfg.seed)).isNone) = false) :
    convert_dir_to_subv cfg fs0 parent base
      = (Except.error (PyErr.osError ("Unable to create temporary subvolume:" ++ base)),
         [Op.touch (parent ++ "/.btrfs-subv-backup.tmp") cfg.fresh,
          Op.createFail (gen_rand_subvolpath parent base cfg.seed)]) ∧
    fsLookup (convertRun cfg fs0 parent base).2 (parent ++ "/.btrfs-subv-backup.tmp")
      = some (FsEnt.mk 1 (Node.file [] cfg.fresh)) ∧
    (∀ q, q ≠ parent ++ "/.btrfs-subv-backup.tmp" →
      fsLookup (convertRun cfg fs0 parent base).2 q = fsLookup fs0 q) := by
  have h1 : convert_dir_to_subv cfg fs0 parent base
      = (Except.error (PyErr.osError ("Unable to create temporary subvolume:" ++ base)),
         [Op.touch (parent ++ "/.btrfs-subv-backup.tmp") cfg.fresh,
          Op.createFail (gen_rand_subvolpath parent base cfg.seed)]) := by
    simp only [convert_dir_to_subv]
    rw [hlook]
    cases hn : e.node with
    | file c m => rw [hn] at hdir; simp [isDirN] at hdir
    | dir m ch =>
      simp only [hn]
      rw [if_neg (by simpa using hino)]
      rw [if_pos (by rw [hfail]; rfl)]
      rfl
  refine ⟨h1, ?_, ?_⟩
  · unfold convertRun
    rw [h1]
    show fsLookup (applyOps fs0 _) _ = _
    simp only [applyOps, List.foldl_cons, List.foldl_nil, applyOp]
    exact fsLookup_fsInsert_self _ _ _
  · intro q hq
    unfold convertRun
    rw [h1]
    show fsLookup (applyOps fs0 _) q = _
    simp only [applyOps, List.foldl_cons, List.foldl_nil, applyOp]
    exact fsLookup_fsInsert_ne _ _ _ _ hq

theorem c4_amended_witness :
    fsLookup c4fs ("/mnt" ++ "/" ++ "d")
      = some (FsEnt.mk 77 (Node.dir (FileMeta.mk 493 9 9 0 0) [])) ∧
    isDirN (FsEnt.mk 77 (Node.dir (FileMeta.mk 493 9 9 0 0) [])).node = true ∧
    (FsEnt.mk 77 (Node.dir (FileMeta.mk 493 9 9 0 0) [])).ino ≠ 256 ∧
    (c4cfg.createOk &&
      (fsLookup (applyOps c4fs [Op.touch ("/mnt" ++ "/.btrfs-subv-backup.tmp") c4cfg.fresh])
        (gen_rand_subvolpath "/mnt" "d" c4cfg.seed)).isNone) = false ∧
    (convert_dir_to_subv c4cfg c4fs "/mnt" "d"
      = (Except.error (PyErr.osError ("Unable to create temporary subvolume:" ++ "d")),
         [Op.touch ("/mnt" ++ "/.btrfs-subv-backup.tmp") c4cfg.fresh,
          Op.createFail (gen_rand_subvolpath "/mnt" "d" c4cfg.seed)]) ∧
     fsLookup (convertRun c4cfg c4fs "/mnt" "d").2 ("/mnt" ++ "/.btrfs-subv-backup.tmp")
      = some (FsEnt.mk 1 (Node.file [] c4cfg.fresh)) ∧
     (∀ q, q ≠ "/mnt" ++ "/.btrfs-subv-backup.tmp" →
      fsLookup (convertRun c4cfg c4fs "/mnt" "d").2 q = fsLookup c4fs q)) :=
  ⟨rfl, rfl, by decide, rfl,
    c4_amended_thm c4cfg c4fs "/mnt" "d"
      (FsEnt.mk 77 (Node.dir (FileMeta.mk 493 9 9 0 0) [])) rfl rfl (by decide) rfl⟩

/-- Claim C1, code-bug evidence at the failing input `exCopySrc`: `copytree`
completes without error, the copy of file `a` has the original content, yet
its metadata is the ambient fresh metadata, not the original mode 0o644 /
mtime 1000 / owner 1000 — because lines 225-227 apply `copy_ownership` and
`copystat` to `srcdir`/`destdir` (the directory-loop variables) instead of
`srcfile`/`destfile`.  The claim that every file copy receives ownership and
full stat metadata is the evident intent (it is exactly what the sibling
directory loop does, and what the copytree docstring announces), so this is a
bug in the code. -/
theorem c1_file_metadata_lost :
    (copytree (CTCfg.mk 0 exFresh (fun _ => true) "copy") exCopySrc
        (Node.dir exFresh [])).err = none ∧
    exCopySrc.lookupPath ["a"] = some (Node.file [7, 8] exMetaA) ∧
    (copytree (CTCfg.mk 0 exFresh (fun _ => true) "copy") exCopySrc
        (Node.dir exFresh [])).dest.lookupPath ["a"]
      = some (Node.file [7, 8] exFresh) ∧
    exFresh.mode ≠ exMetaA.mode ∧ exFresh.mtime ≠ exMetaA.mtime ∧
    exFresh.uid ≠ exMetaA.uid := by
  refine ⟨rfl, rfl, rfl, ?_, ?_, ?_⟩ <;> decide

/-- Claim C3, code-bug evidence: when the clone method is selected,
`parse_args` resolves `reflink` to `copy` (library importable) or raises
NameError (library missing), and `copytree` compares the method against the
string `reflinks` — which neither `parse_args` nor its own docstring ever
produces — so on the documented method value `reflink` the trace contains a
plain `copyfile` and no reflink attempt at all. -/
theorem c3_clone_never_attempted :
    parse_args_method "restore" "reflink" true = Except.ok "copy" ∧
    parse_args_method "restore" "reflink" false
      = Except.error (PyErr.nameError "reflink") ∧
    (copytree (CTCfg.mk 0 exFresh (fun _ => true) "reflink") exCopySrc
        (Node.dir exFresh [])).tr
      = [CTEv.mkdirEv ["sub"], CTEv.copyfileEv ["a"]] :=
  ⟨rfl, rfl, rfl⟩

theorem ctFileStep_stuck {cfg : CTCfg} {src : Node} {p : List String}
    {st : CTState} (h : st.err.isSome) : ctFileStep cfg src p st = st := by
  unfold ctFileStep
  rw [if_pos h]

theorem foldl_ctFileStep_stuck {cfg : CTCfg} {src : Node} {rel : List String}
    {l : List (String × Node)} {st : CTState} (h : st.err.isSome) :
    l.foldl (fun s e => ctFileStep cfg src (rel ++ [e.1]) s) st = st := by
  induction l with
  | nil => rfl
  | cons e rest ih =>
    rw [List.foldl_cons, ctFileStep_stuck h]
    exact ih

theorem ctFileStep_dv_none {cfg : CTCfg} {src : Node} {p : List String}
    {d : Node} {tr : List CTEv} :
    (ctFileStep cfg src p (CTState.mk d none none tr)).err
        = some (PyErr.nameError "srcdir") ∧
    (ctFileStep cfg src p (CTState.mk d none none tr)).dv = none := by
  unfold ctFileStep
  by_cases h1 : cfg.method = "reflinks" <;> by_cases h2 : cfg.canReflink p <;>
    simp [h1, h2]

theorem ctWalkKids_flat {cfg : CTCfg} {src : Node} {rel : List String} :
    ∀ {ch : List (String × Node)} {st : CTState},
      (∀ e ∈ ch, isDirN e.2 = false) → ctWalkKids cfg src rel ch st = st := by
  intro ch
  induction ch with
  | nil => intro st _; rfl
  | cons e rest ih =>
    intro st hflat
    obtain ⟨nm, c⟩ := e
    rw [ctWalkKids.eq_def]
    cases c with
    | file cc mm => exact ih (fun e he => hflat e (List.mem_cons_of_mem _ he))
    | dir mm cc =>
      exact absurd (hflat (nm, Node.dir mm cc) (List.mem_cons_self ..))
        (by simp [isDirN])

/-- Helper for claim C10: on a source directory whose top level holds at
least one entry and no subdirectory, `copytree` raises
`NameError: name 'srcdir' is not defined` — the dirs loop never ran, so the
first file iteration reads the unassigned loop variables at line 227. -/
theorem copytree_flat_err (cfg : CTCfg) (m : FileMeta)
    (ch : List (String × Node)) (destInit : Node)
    (hne : ch ≠ []) (hflat : ∀ e ∈ ch, isDirN e.2 = false) :
    (copytree cfg (Node.dir m ch) destInit).err
      = some (PyErr.nameError "srcdir") := by
  obtain ⟨⟨nm, c⟩, rest, rfl⟩ : ∃ e rest, ch = e :: rest := by
    cases ch with
    | nil => exact absurd rfl hne
    | cons e rest => exact ⟨e, rest, rfl⟩
  have hd : dirsOf ((nm, c) :: rest) = [] := by
    rw [dirsOf, List.filter_eq_nil_iff]
    intro e he
    simp [hflat e he]
  have hf : filesOf ((nm, c) :: rest) = (nm, c) :: rest := by
    rw [filesOf, List.filter_eq_self]
    intro e he
    simp [hflat e he]
  unfold copytree
  rw [ctWalk, ctWalkKids_flat hflat]
  unfold ctTriple
  rw [hd, hf, List.foldl_nil, List.foldl_cons]
  have h1 := @ctFileStep_dv_none cfg (Node.dir m ((nm, c) :: rest))
    ([] ++ [(nm, c).1]) destInit []
  rw [foldl_ctFileStep_stuck (by rw [h1.1]; rfl)]
  exact h1.1

theorem c10_flat_dir_never_converts (cfg : ConvCfg) (fs0 : FS)
    (parent base : String) (e : FsEnt) (m : FileMeta)
    (ch : List (String × Node))
    (hlook : fsLookup fs0 (parent ++ "/" ++ base) = some e)
    (hnode : e.node = Node.dir m ch)
    (hino : e.ino ≠ 256)
    (hne : ch ≠ []) (hflat : ∀ x ∈ ch, isDirN x.2 = false)
    (hdc : parent ++ "/" ++ base ≠ parent ++ "/.btrfs-subv-backup.tmp")
    (hdt : parent ++ "/" ++ base ≠ gen_rand_subvolpath parent base cfg.seed) :
    (copytree (CTCfg.mk cfg.euid cfg.fresh cfg.canReflink cfg.method)
        (Node.dir m ch) (Node.dir cfg.fresh [])).err
      = some (PyErr.nameError "srcdir") ∧
    ∀ b, (convert_dir_to_subv cfg fs0 parent base).1 ≠ Except.ok b := by
  have hct := copytree_flat_err
    (CTCfg.mk cfg.euid cfg.fresh cfg.canReflink cfg.method) m ch
    (Node.dir cfg.fresh []) hne hflat
  refine ⟨hct, ?_⟩
  intro b
  simp only [convert_dir_to_subv]
  rw [hlook]
  simp only [hnode]
  rw [if_neg (by simpa using hino)]
  by_cases hcond : (cfg.createOk &&
      (fsLookup (applyOps fs0 [Op.touch (parent ++ "/.btrfs-subv-backup.tmp") cfg.fresh])
        (gen_rand_subvolpath parent base cfg.seed)).isNone) = true
  · rw [if_neg (by rw [hcond]; simp)]
    have hnodeAt : nodeAt
        (applyOps fs0 ([Op.touch (parent ++ "/.btrfs-subv-backup.tmp") cfg.fresh]
          ++ [Op.mkSubvol (gen_rand_subvolpath parent base cfg.seed) cfg.fresh]))
        (parent ++ "/" ++ base) = Node.dir m ch := by
      show nodeAt (fsInsert (fsInsert fs0 (parent ++ "/.btrfs-subv-backup.tmp")
        (FsEnt.mk 1 (Node.file [] cfg.fresh)))
        (gen_rand_subvolpath parent base cfg.seed)
        (FsEnt.mk 256 (Node.dir cfg.fresh []))) (parent ++ "/" ++ base) = _
      unfold nodeAt
      rw [fsLookup_fsInsert_ne _ _ _ _ hdt, fsLookup_fsInsert_ne _ _ _ _ hdc,
        hlook]
      simp [hnode]
    simp only [convertBody, hnodeAt, hct]
    split
    · intro hcontra
      exact Except.noConfusion hcontra
    · intro hcontra
      exact Except.noConfusion hcontra
  · rw [if_pos (by rw [Bool.of_not_eq_true hcond]; rfl)]
    intro hcontra
    exact Except.noConfusion hcontra

theorem c10_flat_dir_witness :
    fsLookup c10fs ("/mnt" ++ "/" ++ "d")
      = some (FsEnt.mk 77 (Node.dir (FileMeta.mk 493 9 9 0 0)
          [("a", Node.file [1, 2] (FileMeta.mk 420 7 7 0 0))])) ∧
    (FsEnt.mk 77 (Node.dir (FileMeta.mk 493 9 9 0 0)
        [("a", Node.file [1, 2] (FileMeta.mk 420 7 7 0 0))])).node
      = Node.dir (FileMeta.mk 493 9 9 0 0)
          [("a", Node.file [1, 2] (FileMeta.mk 420 7 7 0 0))] ∧
    (FsEnt.mk 77 (Node.dir (FileMeta.mk 493 9 9 0 0)
        [("a", Node.file [1, 2] (FileMeta.mk 420 7 7 0 0))])).ino ≠ 256 ∧
    ([("a", Node.file [1, 2] (FileMeta.mk 420 7 7 0 0))]
      : List (String × Node)) ≠ [] ∧
    (∀ x ∈ ([("a", Node.file [1, 2] (FileMeta.mk 420 7 7 0 0))]
      : List (String × Node)), isDirN x.2 = false) ∧
    "/mnt" ++ "/" ++ "d" ≠ "/mnt" ++ "/.btrfs-subv-backup.tmp" ∧
    "/mnt" ++ "/" ++ "d" ≠ gen_rand_subvolpath "/mnt" "d" c10cfg.seed ∧
    ((copytree (CTCfg.mk c10cfg.euid c10cfg.fresh c10cfg.canReflink c10cfg.method)
        (Node.dir (FileMeta.mk 493 9 9 0 0)
          [("a", Node.file [1, 2] (FileMeta.mk 420 7 7 0 0))])
        (Node.dir c10cfg.fresh [])).err
      = some (PyErr.nameError "srcdir") ∧
     ∀ b, (convert_dir_to_subv c10cfg c10fs "/mnt" "d").1 ≠ Except.ok b) :=
  ⟨rfl, rfl, by decide, List.cons_ne_nil _ _, by decide, by decide, by decide,
    c10_flat_dir_never_converts c10cfg c10fs "/mnt" "d" _ _ _
      rfl rfl (by decide) (List.cons_ne_nil _ _) (by decide) (by decide) (by decide)⟩

theorem applyOps_append (fs : FS) (a b : List Op) :
    applyOps fs (a ++ b) = applyOps (applyOps fs a) b := by
  unfold applyOps
  exact List.foldl_append _ _ _ _

theorem fsLookup_applyOp_notWritten (fs : FS) (op : Op) (q : String)
    (h : q ∉ opWrites op) : fsLookup (applyOp fs op) q = fsLookup fs q := by
  cases op with
  | touch p m =>
    simp only [opWrites, List.mem_singleton] at h
    exact fsLookup_fsInsert_ne _ _ _ _ h
  | mkSubvol p m =>
    simp only [opWrites, List.mem_singleton] at h
    exact fsLookup_fsInsert_ne _ _ _ _ h
  | createFail p => rfl
  | copystatFs s d =>
    simp only [opWrites, List.mem_singleton] at h
    simp only [applyOp]
    split
    · rfl
    · exact fsLookup_fsMapEnt_ne _ _ _ _ h
  | setTree p n =>
    simp only [opWrites, List.mem_singleton] at h
    exact fsLookup_fsMapEnt_ne _ _ _ _ h
  | renameFs s d =>
    simp only [opWrites, List.mem_cons, List.mem_singleton] at h
    push_neg at h
    simp only [applyOp]
    split
    · rfl
    · rw [fsLookup_fsInsert_ne _ _ _ _ h.2.1, fsLookup_fsRemove_ne _ _ _ h.1]
  | chownFs s d =>
    simp only [opWrites, List.mem_singleton] at h
    simp only [applyOp]
    split
    · rfl
    · exact fsLookup_fsMapEnt_ne _ _ _ _ h
  | rmtreeFs p =>
    simp only [opWrites, List.mem_singleton] at h
    exact fsLookup_fsRemove_ne _ _ _ h
  | delSubvol p =>
    simp only [opWrites, List.mem_singleton] at h
    exact fsLookup_fsRemove_ne _ _ _ h
  | delSubvolFail p => rfl
  | unlinkFs p =>
    simp only [opWrites, List.mem_singleton] at h
    exact fsLookup_fsRemove_ne _ _ _ h

theorem fsLookup_applyOps_notWritten (ops : List Op) (fs : FS) (q : String)
    (h : ∀ op ∈ ops, q ∉ opWrites op) :
    fsLookup (applyOps fs ops) q = fsLookup fs q := by
  induction ops generalizing fs with
  | nil => rfl
  | cons op rest ih =>
    show fsLookup (applyOps (applyOp fs op) rest) q = _
    rw [ih (applyOp fs op) (fun o ho => h o (List.mem_cons_of_mem _ ho)),
      fsLookup_applyOp_notWritten _ _ _ (h op (List.mem_cons_self ..))]

theorem fsKeys_nodup_applyOp (fs : FS) (op : Op)
    (h : (fsKeys fs).Nodup) : (fsKeys (applyOp fs op)).Nodup := by
  cases op with
  | touch p m => exact fsKeys_nodup_fsInsert _ _ _ h
  | mkSubvol p m => exact fsKeys_nodup_fsInsert _ _ _ h
  | createFail p => exact h
  | copystatFs s d =>
    simp only [applyOp]
    split
    · exact h
    · rw [fsKeys_fsMapEnt]
      exact h
  | setTree p n =>
    show (fsKeys (fsMapEnt fs p _)).Nodup
    rw [fsKeys_fsMapEnt]
    exact h
  | renameFs s d =>
    simp only [applyOp]
    split
    · exact h
    · exact fsKeys_nodup_fsInsert _ _ _ (fsKeys_nodup_fsRemove _ _ h)
  | chownFs s d =>
    simp only [applyOp]
    split
    · exact h
    · rw [fsKeys_fsMapEnt]
      exact h
  | rmtreeFs p => exact fsKeys_nodup_fsRemove _ _ h
  | delSubvol p => exact fsKeys_nodup_fsRemove _ _ h
  | delSubvolFail p => exact h
  | unlinkFs p => exact fsKeys_nodup_fsRemove _ _ h

theorem fsKeys_nodup_applyOps (ops : List Op) (fs : FS)
    (h : (fsKeys fs).Nodup) : (fsKeys (applyOps fs ops)).Nodup := by
  induction ops generalizing fs with
  | nil => exact h
  | cons op rest ih => exact ih _ (fsKeys_nodup_applyOp _ _ h)

theorem copystat_preserves_isSome (fs : FS) (s d : String)
    (h : (fsLookup fs d).isSome = true) :
    (fsLookup (applyOp fs (Op.copystatFs s d)) d).isSome = true := by
  simp only [applyOp]
  split
  · exact h
  · rw [fsLookup_fsMapEnt_self]
    cases hx : fsLookup fs d with
    | none => rw [hx] at h; exact absurd h (by simp)
    | some v => rfl

theorem convertBody_error (cfg : ConvCfg) (fs2 : FS)
    (dest temppath copypath oldpath : String) (e2 : PyErr)
    (hct : (copytree (CTCfg.mk cfg.euid cfg.fresh cfg.canReflink cfg.method)
      (nodeAt fs2 dest) (Node.dir cfg.fresh [])).err = some e2) :
    convertBody cfg fs2 dest temppath copypath oldpath
      = (Except.error e2,
         [Op.copystatFs dest copypath,
          Op.setTree temppath
            (copytree (CTCfg.mk cfg.euid cfg.fresh cfg.canReflink cfg.method)
              (nodeAt fs2 dest) (Node.dir cfg.fresh [])).dest]) := by
  simp only [convertBody, hct]

theorem convertBody_success (cfg : ConvCfg) (fs2 : FS)
    (dest temppath copypath oldpath : String)
    (hct : (copytree (CTCfg.mk cfg.euid cfg.fresh cfg.canReflink cfg.method)
      (nodeAt fs2 dest) (Node.dir cfg.fresh [])).err = none)
    (hold : fsLookup (applyOps fs2 [Op.copystatFs dest copypath,
      Op.setTree temppath
        (copytree (CTCfg.mk cfg.euid cfg.fresh cfg.canReflink cfg.method)
          (nodeAt fs2 dest) (Node.dir cfg.fresh [])).dest]) oldpath = none) :
    convertBody cfg fs2 dest temppath copypath oldpath
      = (Except.ok true,
         [Op.copystatFs dest copypath,
          Op.setTree temppath
            (copytree (CTCfg.mk cfg.euid cfg.fresh cfg.canReflink cfg.method)
              (nodeAt fs2 dest) (Node.dir cfg.fresh [])).dest,
          Op.renameFs dest oldpath, Op.renameFs temppath dest,
          Op.copystatFs copypath dest]
         ++ (if cfg.euid = 0 then [Op.chownFs oldpath dest] else [])
         ++ [Op.rmtreeFs oldpath]) := by
  simp only [convertBody, hct, hold]
  by_cases he : cfg.euid = 0 <;> simp [he]

theorem convertCleanup_absent (cfg : ConvCfg) (fsB : FS)
    (temppath copypath : String) (h : fsLookup fsB temppath = none) :
    convertCleanup cfg fsB temppath copypath
      = (Except.ok (), [Op.delSubvolFail temppath]) := by
  unfold convertCleanup
  rw [h]

theorem convertCleanup_noMask (cfg : ConvCfg) (fsB : FS)
    (temppath copypath : String) (en : FsEnt)
    (h : fsLookup fsB temppath = some en) (hino : en.ino = 256)
    (hcp : (fsLookup (applyOp fsB (Op.delSubvol temppath)) copypath).isSome
      = true) :
    (convertCleanup cfg fsB temppath copypath).1 = Except.ok () ∧
    (convertCleanup cfg fsB temppath copypath).2
      = (if cfg.deleteOk then [Op.delSubvol temppath, Op.unlinkFs copypath]
         else [Op.delSubvolFail temppath]) := by
  simp only [convertCleanup, h]
  by_cases hd : cfg.deleteOk
  · rw [if_pos (by simp [hino, hd]), if_pos hcp]
    simp [hd]
  · rw [if_neg (by simp [hd])]
    simp [hd]

/-- Full evaluation of `convert_dir_to_subv` on the successful protocol path:
the destination is an ordinary directory, the temporary subvolume is created,
`copytree` raises nothing, and the call returns True with the operation trace
`convertOpsSuccess` — in particular the cleanup's subvolume delete fails (the
temporary name was renamed away) and the placeholder unlink is skipped. -/
theorem convert_success_shape (cfg : ConvCfg) (fs0 : FS) (parent base : String)
    (e : FsEnt) (m : FileMeta) (ch : List (String × Node))
    (hkeys : (fsKeys fs0).Nodup)
    (hlook : fsLookup fs0 (parent ++ "/" ++ base) = some e)
    (hnode : e.node = Node.dir m ch) (hino : e.ino ≠ 256)
    (hcreate : cfg.createOk = true)
    (ht0 : fsLookup fs0 (gen_rand_subvolpath parent base cfg.seed) = none)
    (ho0 : fsLookup fs0 (parent ++ "/.btrfs-subv-backup.old") = none)
    (hdc : (parent ++ "/" ++ base) ≠ (parent ++ "/.btrfs-subv-backup.tmp"))
    (hdt : (parent ++ "/" ++ base) ≠ (gen_rand_subvolpath parent base cfg.seed))
    (hdo : (parent ++ "/" ++ base) ≠ (parent ++ "/.btrfs-subv-backup.old"))
    (htc : (gen_rand_subvolpath parent base cfg.seed) ≠ (parent ++ "/.btrfs-subv-backup.tmp"))
    (hto : (gen_rand_subvolpath parent base cfg.seed) ≠ (parent ++ "/.btrfs-subv-backup.old"))
    (hoc : (parent ++ "/.btrfs-subv-backup.old") ≠ (parent ++ "/.btrfs-subv-backup.tmp"))
    (hctok : (copytree (CTCfg.mk cfg.euid cfg.fresh cfg.canReflink cfg.method) (Node.dir m ch) (Node.dir cfg.fresh [])).err = none) :
    convert_dir_to_subv cfg fs0 parent base
      = (Except.ok true, convertOpsSuccess cfg parent base (copytree (CTCfg.mk cfg.euid cfg.fresh cfg.canReflink cfg.method) (Node.dir m ch) (Node.dir cfg.fresh [])).dest) := by
  have hco : (parent ++ "/.btrfs-subv-backup.tmp") ≠ (parent ++ "/.btrfs-subv-backup.old") :=
    fun hh => hoc hh.symm
  have hot2 : (parent ++ "/.btrfs-subv-backup.old") ≠ (gen_rand_subvolpath parent base cfg.seed) :=
    fun hh => hto hh.symm
  have hod : (parent ++ "/.btrfs-subv-backup.old") ≠ (parent ++ "/" ++ base) :=
    fun hh => hdo hh.symm
  have hcd : (parent ++ "/.btrfs-subv-backup.tmp") ≠ (parent ++ "/" ++ base) :=
    fun hh => hdc hh.symm
  have htd : (gen_rand_subvolpath parent base cfg.seed) ≠ (parent ++ "/" ++ base) :=
    fun hh => hdt hh.symm
  simp only [convert_dir_to_subv]
  rw [hlook]
  simp only [hnode]
  rw [if_neg (by simpa using hino)]
  have hins : fsLookup (applyOps fs0 [Op.touch (parent ++ "/.btrfs-subv-backup.tmp") cfg.fresh]) (gen_rand_subvolpath parent base cfg.seed) = none := by
    show fsLookup (fsInsert fs0 _ _) _ = none
    rw [fsLookup_fsInsert_ne _ _ _ _ htc, ht0]
  rw [if_neg (by simp [hins, hcreate])]
  have hnodeAt : nodeAt (applyOps fs0 ([Op.touch (parent ++ "/.btrfs-subv-backup.tmp") cfg.fresh] ++ [Op.mkSubvol (gen_rand_subvolpath parent base cfg.seed) cfg.fresh])) (parent ++ "/" ++ base) = Node.dir m ch := by
    show nodeAt (fsInsert (fsInsert fs0 _ _) _ _) _ = _
    unfold nodeAt
    rw [fsLookup_fsInsert_ne _ _ _ _ hdt, fsLookup_fsInsert_ne _ _ _ _ hdc, hlook]
    simp [hnode]
  have hctok2 : (copytree (CTCfg.mk cfg.euid cfg.fresh cfg.canReflink cfg.method)
      (nodeAt (applyOps fs0 ([Op.touch (parent ++ "/.btrfs-subv-backup.tmp") cfg.fresh] ++ [Op.mkSubvol (gen_rand_subvolpath parent base cfg.seed) cfg.fresh])) (parent ++ "/" ++ base)) (Node.dir cfg.fresh [])).err
      = none := by
    rw [hnodeAt]
    exact hctok
  have hold : fsLookup (applyOps (applyOps fs0 ([Op.touch (parent ++ "/.btrfs-subv-backup.tmp") cfg.fresh] ++ [Op.mkSubvol (gen_rand_subvolpath parent base cfg.seed) cfg.fresh]))
      [Op.copystatFs (parent ++ "/" ++ base) (parent ++ "/.btrfs-subv-backup.tmp"),
       Op.setTree (gen_rand_subvolpath parent base cfg.seed) (copytree (CTCfg.mk cfg.euid cfg.fresh cfg.canReflink cfg.method)
         (nodeAt (applyOps fs0 ([Op.touch (parent ++ "/.btrfs-subv-backup.tmp") cfg.fresh] ++ [Op.mkSubvol (gen_rand_subvolpath parent base cfg.seed) cfg.fresh])) (parent ++ "/" ++ base)) (Node.dir cfg.fresh [])).dest])
      (parent ++ "/.btrfs-subv-backup.old") = none := by
    rw [← applyOps_append]
    rw [fsLookup_applyOps_notWritten _ _ _ ?_, ho0]
    intro op hop
    simp only [List.cons_append, List.nil_append, List.mem_cons,
      List.not_mem_nil, or_false] at hop
    rcases hop with rfl | rfl | rfl | rfl <;>
      simp [opWrites, hoc, hot2, hod]
  have hbody := convertBody_success cfg (applyOps fs0 ([Op.touch (parent ++ "/.btrfs-subv-backup.tmp") cfg.fresh] ++ [Op.mkSubvol (gen_rand_subvolpath parent base cfg.seed) cfg.fresh]))
    (parent ++ "/" ++ base) (gen_rand_subvolpath parent base cfg.seed) (parent ++ "/.btrfs-subv-backup.tmp") (parent ++ "/.btrfs-subv-backup.old") hctok2 hold
  simp only [hbody, hnodeAt]
  have h2t : fsLookup (applyOps fs0 [Op.touch (parent ++ "/.btrfs-subv-backup.tmp") cfg.fresh, Op.mkSubvol (gen_rand_subvolpath parent base cfg.seed) cfg.fresh]) (gen_rand_subvolpath parent base cfg.seed)
      = some (FsEnt.mk 256 (Node.dir cfg.fresh [])) := by
    show fsLookup (fsInsert (fsInsert fs0 _ _) _ _) _ = _
    exact fsLookup_fsInsert_self _ _ _
  have h3t : fsLookup (applyOps fs0 [Op.touch (parent ++ "/.btrfs-subv-backup.tmp") cfg.fresh, Op.mkSubvol (gen_rand_subvolpath parent base cfg.seed) cfg.fresh, Op.copystatFs (parent ++ "/" ++ base) (parent ++ "/.btrfs-subv-backup.tmp")]) (gen_rand_subvolpath parent base cfg.seed)
      = some (FsEnt.mk 256 (Node.dir cfg.fresh [])) := by
    show fsLookup (applyOp (applyOps fs0 [Op.touch (parent ++ "/.btrfs-subv-backup.tmp") cfg.fresh, Op.mkSubvol (gen_rand_subvolpath parent base cfg.seed) cfg.fresh]) (Op.copystatFs (parent ++ "/" ++ base) (parent ++ "/.btrfs-subv-backup.tmp"))) _ = _
    rw [fsLookup_applyOp_notWritten _ _ _ (by simp [opWrites, htc]), h2t]
  have h4t : fsLookup (applyOps fs0 [Op.touch (parent ++ "/.btrfs-subv-backup.tmp") cfg.fresh, Op.mkSubvol (gen_rand_subvolpath parent base cfg.seed) cfg.fresh, Op.copystatFs (parent ++ "/" ++ base) (parent ++ "/.btrfs-subv-backup.tmp"), Op.setTree (gen_rand_subvolpath parent base cfg.seed) (copytree (CTCfg.mk cfg.euid cfg.fresh cfg.canReflink cfg.method) (Node.dir m ch) (Node.dir cfg.fresh [])).dest]) (gen_rand_subvolpath parent base cfg.seed)
      = some (FsEnt.mk 256 (copytree (CTCfg.mk cfg.euid cfg.fresh cfg.canReflink cfg.method) (Node.dir m ch) (Node.dir cfg.fresh [])).dest) := by
    show fsLookup (fsMapEnt (applyOps fs0 [Op.touch (parent ++ "/.btrfs-subv-backup.tmp") cfg.fresh, Op.mkSubvol (gen_rand_subvolpath parent base cfg.seed) cfg.fresh, Op.copystatFs (parent ++ "/" ++ base) (parent ++ "/.btrfs-subv-backup.tmp")]) _ _) _ = _
    rw [fsLookup_fsMapEnt_self, h3t]
    rfl
  have h4d : fsLookup (applyOps fs0 [Op.touch (parent ++ "/.btrfs-subv-backup.tmp") cfg.fresh, Op.mkSubvol (gen_rand_subvolpath parent base cfg.seed) cfg.fresh, Op.copystatFs (parent ++ "/" ++ base) (parent ++ "/.btrfs-subv-backup.tmp"), Op.setTree (gen_rand_subvolpath parent base cfg.seed) (copytree (CTCfg.mk cfg.euid cfg.fresh cfg.canReflink cfg.method) (Node.dir m ch) (Node.dir cfg.fresh [])).dest]) (parent ++ "/" ++ base) = some e := by
    rw [fsLookup_applyOps_notWritten _ _ _ ?_, hlook]
    intro op hop
    simp only [List.mem_cons, List.not_mem_nil, or_false] at hop
    rcases hop with rfl | rfl | rfl | rfl <;> simp [opWrites, hdc, hdt]
  have h5t : fsLookup (applyOps fs0 [Op.touch (parent ++ "/.btrfs-subv-backup.tmp") cfg.fresh, Op.mkSubvol (gen_rand_subvolpath parent base cfg.seed) cfg.fresh, Op.copystatFs (parent ++ "/" ++ base) (parent ++ "/.btrfs-subv-backup.tmp"), Op.setTree (gen_rand_subvolpath parent base cfg.seed) (copytree (CTCfg.mk cfg.euid cfg.fresh cfg.canReflink cfg.method) (Node.dir m ch) (Node.dir cfg.fresh [])).dest, Op.renameFs (parent ++ "/" ++ base) (parent ++ "/.btrfs-subv-backup.old")]) (gen_rand_subvolpath parent base cfg.seed)
      = some (FsEnt.mk 256 (copytree (CTCfg.mk cfg.euid cfg.fresh cfg.canReflink cfg.method) (Node.dir m ch) (Node.dir cfg.fresh [])).dest) := by
    show fsLookup (applyOp (applyOps fs0 [Op.touch (parent ++ "/.btrfs-subv-backup.tmp") cfg.fresh, Op.mkSubvol (gen_rand_subvolpath parent base cfg.seed) cfg.fresh, Op.copystatFs (parent ++ "/" ++ base) (parent ++ "/.btrfs-subv-backup.tmp"), Op.setTree (gen_rand_subvolpath parent base cfg.seed) (copytree (CTCfg.mk cfg.euid cfg.fresh cfg.canReflink cfg.method) (Node.dir m ch) (Node.dir cfg.fresh [])).dest]) (Op.renameFs (parent ++ "/" ++ base) (parent ++ "/.btrfs-subv-backup.old"))) _ = _
    simp only [applyOp, h4d]
    rw [fsLookup_fsInsert_ne _ _ _ _ hto,
      fsLookup_fsRemove_ne _ _ _ (fun hh => hdt hh.symm), h4t]
  have h6t : fsLookup (applyOps fs0 [Op.touch (parent ++ "/.btrfs-subv-backup.tmp") cfg.fresh, Op.mkSubvol (gen_rand_subvolpath parent base cfg.seed) cfg.fresh, Op.copystatFs (parent ++ "/" ++ base) (parent ++ "/.btrfs-subv-backup.tmp"), Op.setTree (gen_rand_subvolpath parent base cfg.seed) (copytree (CTCfg.mk cfg.euid cfg.fresh cfg.canReflink cfg.method) (Node.dir m ch) (Node.dir cfg.fresh [])).dest, Op.renameFs (parent ++ "/" ++ base) (parent ++ "/.btrfs-subv-backup.old"), Op.renameFs (gen_rand_subvolpath parent base cfg.seed) (parent ++ "/" ++ base)]) (gen_rand_subvolpath parent base cfg.seed)
      = none := by
    show fsLookup (applyOp (applyOps fs0 [Op.touch (parent ++ "/.btrfs-subv-backup.tmp") cfg.fresh, Op.mkSubvol (gen_rand_subvolpath parent base cfg.seed) cfg.fresh, Op.copystatFs (parent ++ "/" ++ base) (parent ++ "/.btrfs-subv-backup.tmp"), Op.setTree (gen_rand_subvolpath parent base cfg.seed) (copytree (CTCfg.mk cfg.euid cfg.fresh cfg.canReflink cfg.method) (Node.dir m ch) (Node.dir cfg.fresh [])).dest, Op.renameFs (parent ++ "/" ++ base) (parent ++ "/.btrfs-subv-backup.old")]) (Op.renameFs (gen_rand_subvolpath parent base cfg.seed) (parent ++ "/" ++ base))) _ = _
    simp only [applyOp, h5t]
    rw [fsLookup_fsInsert_ne _ _ _ _ (fun hh => hdt hh.symm)]
    exact fsLookup_fsRemove_self _ _ (fsKeys_nodup_applyOps _ _ hkeys)
  have htB : fsLookup (applyOps (applyOps fs0 ([Op.touch (parent ++ "/.btrfs-subv-backup.tmp") cfg.fresh] ++ [Op.mkSubvol (gen_rand_subvolpath parent base cfg.seed) cfg.fresh]))
      ([Op.copystatFs (parent ++ "/" ++ base) (parent ++ "/.btrfs-subv-backup.tmp"), Op.setTree (gen_rand_subvolpath parent base cfg.seed) (copytree (CTCfg.mk cfg.euid cfg.fresh cfg.canReflink cfg.method) (Node.dir m ch) (Node.dir cfg.fresh [])).dest, Op.renameFs (parent ++ "/" ++ base) (parent ++ "/.btrfs-subv-backup.old"), Op.renameFs (gen_rand_subvolpath parent base cfg.seed) (parent ++ "/" ++ base), Op.copystatFs (parent ++ "/.btrfs-subv-backup.tmp") (parent ++ "/" ++ base)] ++ (if cfg.euid = 0 then [Op.chownFs (parent ++ "/.btrfs-subv-backup.old") (parent ++ "/" ++ base)] else []) ++ [Op.rmtreeFs (parent ++ "/.btrfs-subv-backup.old")])) (gen_rand_subvolpath parent base cfg.seed) = none := by
    rw [← applyOps_append]
    have hlist : ([Op.touch (parent ++ "/.btrfs-subv-backup.tmp") cfg.fresh] ++ [Op.mkSubvol (gen_rand_subvolpath parent base cfg.seed) cfg.fresh]) ++ ([Op.copystatFs (parent ++ "/" ++ base) (parent ++ "/.btrfs-subv-backup.tmp"), Op.setTree (gen_rand_subvolpath parent base cfg.seed) (copytree (CTCfg.mk cfg.euid cfg.fresh cfg.canReflink cfg.method) (Node.dir m ch) (Node.dir cfg.fresh [])).dest, Op.renameFs (parent ++ "/" ++ base) (parent ++ "/.btrfs-subv-backup.old"), Op.renameFs (gen_rand_subvolpath parent base cfg.seed) (parent ++ "/" ++ base), Op.copystatFs (parent ++ "/.btrfs-subv-backup.tmp") (parent ++ "/" ++ base)] ++ (if cfg.euid = 0 then [Op.chownFs (parent ++ "/.btrfs-subv-backup.old") (parent ++ "/" ++ base)] else []) ++ [Op.rmtreeFs (parent ++ "/.btrfs-subv-backup.old")])
        = [Op.touch (parent ++ "/.btrfs-subv-backup.tmp") cfg.fresh, Op.mkSubvol (gen_rand_subvolpath parent base cfg.seed) cfg.fresh, Op.copystatFs (parent ++ "/" ++ base) (parent ++ "/.btrfs-subv-backup.tmp"), Op.setTree (gen_rand_subvolpath parent base cfg.seed) (copytree (CTCfg.mk cfg.euid cfg.fresh cfg.canReflink cfg.method) (Node.dir m ch) (Node.dir cfg.fresh [])).dest, Op.renameFs (parent ++ "/" ++ base) (parent ++ "/.btrfs-subv-backup.old"), Op.renameFs (gen_rand_subvolpath parent base cfg.seed) (parent ++ "/" ++ base)]
          ++ ([Op.copystatFs (parent ++ "/.btrfs-subv-backup.tmp") (parent ++ "/" ++ base)] ++ (if cfg.euid = 0 then [Op.chownFs (parent ++ "/.btrfs-subv-backup.old") (parent ++ "/" ++ base)] else []) ++ [Op.rmtreeFs (parent ++ "/.btrfs-subv-backup.old")]) := by
      simp
    rw [hlist, applyOps_append]
    rw [fsLookup_applyOps_notWritten _ _ _ ?_, h6t]
    intro op hop
    by_cases he : cfg.euid = 0 <;>
      simp only [he, if_true, if_false, List.cons_append, List.nil_append,
        List.mem_cons, List.not_mem_nil, or_false] at hop
    · rcases hop with rfl | rfl | rfl <;> simp [opWrites, htd, hot2.symm, hto]
    · rcases hop with rfl | rfl <;> simp [opWrites, htd, hot2.symm, hto]
  have hcl := convertCleanup_absent cfg
    (applyOps (applyOps fs0 ([Op.touch (parent ++ "/.btrfs-subv-backup.tmp") cfg.fresh] ++ [Op.mkSubvol (gen_rand_subvolpath parent base cfg.seed) cfg.fresh])) ([Op.copystatFs (parent ++ "/" ++ base) (parent ++ "/.btrfs-subv-backup.tmp"), Op.setTree (gen_rand_subvolpath parent base cfg.seed) (copytree (CTCfg.mk cfg.euid cfg.fresh cfg.canReflink cfg.method) (Node.dir m ch) (Node.dir cfg.fresh [])).dest, Op.renameFs (parent ++ "/" ++ base) (parent ++ "/.btrfs-subv-backup.old"), Op.renameFs (gen_rand_subvolpath parent base cfg.seed) (parent ++ "/" ++ base), Op.copystatFs (parent ++ "/.btrfs-subv-backup.tmp") (parent ++ "/" ++ base)] ++ (if cfg.euid = 0 then [Op.chownFs (parent ++ "/.btrfs-subv-backup.old") (parent ++ "/" ++ base)] else []) ++ [Op.rmtreeFs (parent ++ "/.btrfs-subv-backup.old")])) (gen_rand_subvolpath parent base cfg.seed) (parent ++ "/.btrfs-subv-backup.tmp") htB
  simp only [hcl]
  by_cases he : cfg.euid = 0 <;> simp [convertOpsSuccess, he]

/-- Full evaluation of `convert_dir_to_subv` when `copytree` raises: the body
aborts after the stat snapshot and the partial materialization, the cleanup
deletes the still-present temporary subvolume (when the external delete call
works, also unlinking the placeholder; otherwise swallowing the failure), and
the body's exception is re-raised unchanged — the cleanup never masks it. -/
theorem convert_error_shape (cfg : ConvCfg) (fs0 : FS) (parent base : String)
    (e : FsEnt) (m : FileMeta) (ch : List (String × Node)) (e2 : PyErr)
    (hlook : fsLookup fs0 (parent ++ "/" ++ base) = some e)
    (hnode : e.node = Node.dir m ch) (hino : e.ino ≠ 256)
    (hcreate : cfg.createOk = true)
    (ht0 : fsLookup fs0 (gen_rand_subvolpath parent base cfg.seed) = none)
    (hdc : (parent ++ "/" ++ base) ≠ (parent ++ "/.btrfs-subv-backup.tmp"))
    (hdt : (parent ++ "/" ++ base) ≠ (gen_rand_subvolpath parent base cfg.seed))
    (htc : (gen_rand_subvolpath parent base cfg.seed) ≠ (parent ++ "/.btrfs-subv-backup.tmp"))
    (hcterr : (copytree (CTCfg.mk cfg.euid cfg.fresh cfg.canReflink cfg.method) (Node.dir m ch) (Node.dir cfg.fresh [])).err = some e2) :
    convert_dir_to_subv cfg fs0 parent base
      = (Except.error e2,
         [Op.touch (parent ++ "/.btrfs-subv-backup.tmp") cfg.fresh, Op.mkSubvol (gen_rand_subvolpath parent base cfg.seed) cfg.fresh, Op.copystatFs (parent ++ "/" ++ base) (parent ++ "/.btrfs-subv-backup.tmp"), Op.setTree (gen_rand_subvolpath parent base cfg.seed) (copytree (CTCfg.mk cfg.euid cfg.fresh cfg.canReflink cfg.method) (Node.dir m ch) (Node.dir cfg.fresh [])).dest]
         ++ (if cfg.deleteOk then [Op.delSubvol (gen_rand_subvolpath parent base cfg.seed), Op.unlinkFs (parent ++ "/.btrfs-subv-backup.tmp")]
             else [Op.delSubvolFail (gen_rand_subvolpath parent base cfg.seed)])) := by
  simp only [convert_dir_to_subv]
  rw [hlook]
  simp only [hnode]
  rw [if_neg (by simpa using hino)]
  have hins : fsLookup (applyOps fs0 [Op.touch (parent ++ "/.btrfs-subv-backup.tmp") cfg.fresh]) (gen_rand_subvolpath parent base cfg.seed) = none := by
    show fsLookup (fsInsert fs0 _ _) _ = none
    rw [fsLookup_fsInsert_ne _ _ _ _ htc, ht0]
  rw [if_neg (by simp [hins, hcreate])]
  have hnodeAt : nodeAt (applyOps fs0 ([Op.touch (parent ++ "/.btrfs-subv-backup.tmp") cfg.fresh] ++ [Op.mkSubvol (gen_rand_subvolpath parent base cfg.seed) cfg.fresh])) (parent ++ "/" ++ base) = Node.dir m ch := by
    show nodeAt (fsInsert (fsInsert fs0 _ _) _ _) _ = _
    unfold nodeAt
    rw [fsLookup_fsInsert_ne _ _ _ _ hdt, fsLookup_fsInsert_ne _ _ _ _ hdc, hlook]
    simp [hnode]
  have hcterr2 : (copytree (CTCfg.mk cfg.euid cfg.fresh cfg.canReflink cfg.method)
      (nodeAt (applyOps fs0 ([Op.touch (parent ++ "/.btrfs-subv-backup.tmp") cfg.fresh] ++ [Op.mkSubvol (gen_rand_subvolpath parent base cfg.seed) cfg.fresh])) (parent ++ "/" ++ base)) (Node.dir cfg.fresh [])).err
      = some e2 := by
    rw [hnodeAt]
    exact hcterr
  have hbody := convertBody_error cfg (applyOps fs0 ([Op.touch (parent ++ "/.btrfs-subv-backup.tmp") cfg.fresh] ++ [Op.mkSubvol (gen_rand_subvolpath parent base cfg.seed) cfg.fresh]))
    (parent ++ "/" ++ base) (gen_rand_subvolpath parent base cfg.seed) (parent ++ "/.btrfs-subv-backup.tmp") (parent ++ "/.btrfs-subv-backup.old") e2 hcterr2
  simp only [hbody, hnodeAt]
  have h2t : fsLookup (applyOps fs0 [Op.touch (parent ++ "/.btrfs-subv-backup.tmp") cfg.fresh, Op.mkSubvol (gen_rand_subvolpath parent base cfg.seed) cfg.fresh]) (gen_rand_subvolpath parent base cfg.seed)
      = some (FsEnt.mk 256 (Node.dir cfg.fresh [])) := by
    show fsLookup (fsInsert (fsInsert fs0 _ _) _ _) _ = _
    exact fsLookup_fsInsert_self _ _ _
  have h3t : fsLookup (applyOps fs0 [Op.touch (parent ++ "/.btrfs-subv-backup.tmp") cfg.fresh, Op.mkSubvol (gen_rand_subvolpath parent base cfg.seed) cfg.fresh, Op.copystatFs (parent ++ "/" ++ base) (parent ++ "/.btrfs-subv-backup.tmp")]) (gen_rand_subvolpath parent base cfg.seed)
      = some (FsEnt.mk 256 (Node.dir cfg.fresh [])) := by
    show fsLookup (applyOp (applyOps fs0 [Op.touch (parent ++ "/.btrfs-subv-backup.tmp") cfg.fresh, Op.mkSubvol (gen_rand_subvolpath parent base cfg.seed) cfg.fresh]) (Op.copystatFs (parent ++ "/" ++ base) (parent ++ "/.btrfs-subv-backup.tmp"))) _ = _
    rw [fsLookup_applyOp_notWritten _ _ _ (by simp [opWrites, htc]), h2t]
  have h4t2 : fsLookup (applyOps (applyOps fs0 ([Op.touch (parent ++ "/.btrfs-subv-backup.tmp") cfg.fresh] ++ [Op.mkSubvol (gen_rand_subvolpath parent base cfg.seed) cfg.fresh]))
      [Op.copystatFs (parent ++ "/" ++ base) (parent ++ "/.btrfs-subv-backup.tmp"), Op.setTree (gen_rand_subvolpath parent base cfg.seed) (copytree (CTCfg.mk cfg.euid cfg.fresh cfg.canReflink cfg.method) (Node.dir m ch) (Node.dir cfg.fresh [])).dest]) (gen_rand_subvolpath parent base cfg.seed) = some (FsEnt.mk 256 (copytree (CTCfg.mk cfg.euid cfg.fresh cfg.canReflink cfg.method) (Node.dir m ch) (Node.dir cfg.fresh [])).dest) := by
    show fsLookup (fsMapEnt (applyOps fs0 [Op.touch (parent ++ "/.btrfs-subv-backup.tmp") cfg.fresh, Op.mkSubvol (gen_rand_subvolpath parent base cfg.seed) cfg.fresh, Op.copystatFs (parent ++ "/" ++ base) (parent ++ "/.btrfs-subv-backup.tmp")]) _ _) _ = _
    rw [fsLookup_fsMapEnt_self, h3t]
    rfl
  have g1 : (fsLookup (applyOps fs0 [Op.touch (parent ++ "/.btrfs-subv-backup.tmp") cfg.fresh]) (parent ++ "/.btrfs-subv-backup.tmp")).isSome = true := by
    show (fsLookup (fsInsert fs0 _ _) _).isSome = true
    rw [fsLookup_fsInsert_self]
    rfl
  have g2 : (fsLookup (applyOps fs0 [Op.touch (parent ++ "/.btrfs-subv-backup.tmp") cfg.fresh, Op.mkSubvol (gen_rand_subvolpath parent base cfg.seed) cfg.fresh]) (parent ++ "/.btrfs-subv-backup.tmp")).isSome = true := by
    show (fsLookup (applyOp (applyOps fs0 [Op.touch (parent ++ "/.btrfs-subv-backup.tmp") cfg.fresh]) (Op.mkSubvol (gen_rand_subvolpath parent base cfg.seed) cfg.fresh)) _).isSome = true
    rw [fsLookup_applyOp_notWritten _ _ _
      (by simp [opWrites]; exact fun hh => htc hh.symm)]
    exact g1
  have g3 : (fsLookup (applyOps fs0 [Op.touch (parent ++ "/.btrfs-subv-backup.tmp") cfg.fresh, Op.mkSubvol (gen_rand_subvolpath parent base cfg.seed) cfg.fresh, Op.copystatFs (parent ++ "/" ++ base) (parent ++ "/.btrfs-subv-backup.tmp")]) (parent ++ "/.btrfs-subv-backup.tmp")).isSome = true := by
    show (fsLookup (applyOp (applyOps fs0 [Op.touch (parent ++ "/.btrfs-subv-backup.tmp") cfg.fresh, Op.mkSubvol (gen_rand_subvolpath parent base cfg.seed) cfg.fresh]) (Op.copystatFs (parent ++ "/" ++ base) (parent ++ "/.btrfs-subv-backup.tmp"))) _).isSome = true
    exact copystat_preserves_isSome _ _ _ g2
  have g4 : (fsLookup (applyOps (applyOps fs0 ([Op.touch (parent ++ "/.btrfs-subv-backup.tmp") cfg.fresh] ++ [Op.mkSubvol (gen_rand_subvolpath parent base cfg.seed) cfg.fresh]))
      [Op.copystatFs (parent ++ "/" ++ base) (parent ++ "/.btrfs-subv-backup.tmp"), Op.setTree (gen_rand_subvolpath parent base cfg.seed) (copytree (CTCfg.mk cfg.euid cfg.fresh cfg.canReflink cfg.method) (Node.dir m ch) (Node.dir cfg.fresh [])).dest]) (parent ++ "/.btrfs-subv-backup.tmp")).isSome = true := by
    show (fsLookup (applyOp (applyOps fs0 [Op.touch (parent ++ "/.btrfs-subv-backup.tmp") cfg.fresh, Op.mkSubvol (gen_rand_subvolpath parent base cfg.seed) cfg.fresh, Op.copystatFs (parent ++ "/" ++ base) (parent ++ "/.btrfs-subv-backup.tmp")]) (Op.setTree (gen_rand_subvolpath parent base cfg.seed) (copytree (CTCfg.mk cfg.euid cfg.fresh cfg.canReflink cfg.method) (Node.dir m ch) (Node.dir cfg.fresh [])).dest)) _).isSome = true
    rw [fsLookup_applyOp_notWritten _ _ _
      (by simp [opWrites]; exact fun hh => htc hh.symm)]
    exact g3
  have hcp : (fsLookup (applyOp (applyOps (applyOps fs0 ([Op.touch (parent ++ "/.btrfs-subv-backup.tmp") cfg.fresh] ++ [Op.mkSubvol (gen_rand_subvolpath parent base cfg.seed) cfg.fresh]))
      [Op.copystatFs (parent ++ "/" ++ base) (parent ++ "/.btrfs-subv-backup.tmp"), Op.setTree (gen_rand_subvolpath parent base cfg.seed) (copytree (CTCfg.mk cfg.euid cfg.fresh cfg.canReflink cfg.method) (Node.dir m ch) (Node.dir cfg.fresh [])).dest]) (Op.delSubvol (gen_rand_subvolpath parent base cfg.seed))) (parent ++ "/.btrfs-subv-backup.tmp")).isSome = true := by
    show (fsLookup (fsRemove _ _) _).isSome = true
    rw [fsLookup_fsRemove_ne _ _ _ (fun hh => htc hh.symm)]
    exact g4
  have hcl := convertCleanup_noMask cfg
    (applyOps (applyOps fs0 ([Op.touch (parent ++ "/.btrfs-subv-backup.tmp") cfg.fresh] ++ [Op.mkSubvol (gen_rand_subvolpath parent base cfg.seed) cfg.fresh])) [Op.copystatFs (parent ++ "/" ++ base) (parent ++ "/.btrfs-subv-backup.tmp"), Op.setTree (gen_rand_subvolpath parent base cfg.seed) (copytree (CTCfg.mk cfg.euid cfg.fresh cfg.canReflink cfg.method) (Node.dir m ch) (Node.dir cfg.fresh [])).dest])
    (gen_rand_subvolpath parent base cfg.seed) (parent ++ "/.btrfs-subv-backup.tmp") (FsEnt.mk 256 (copytree (CTCfg.mk cfg.euid cfg.fresh cfg.canReflink cfg.method) (Node.dir m ch) (Node.dir cfg.fresh [])).dest) h4t2 rfl hcp
  have hclfull : convertCleanup cfg
      (applyOps (applyOps fs0 ([Op.touch (parent ++ "/.btrfs-subv-backup.tmp") cfg.fresh] ++ [Op.mkSubvol (gen_rand_subvolpath parent base cfg.seed) cfg.fresh])) [Op.copystatFs (parent ++ "/" ++ base) (parent ++ "/.btrfs-subv-backup.tmp"), Op.setTree (gen_rand_subvolpath parent base cfg.seed) (copytree (CTCfg.mk cfg.euid cfg.fresh cfg.canReflink cfg.method) (Node.dir m ch) (Node.dir cfg.fresh [])).dest]) (gen_rand_subvolpath parent base cfg.seed) (parent ++ "/.btrfs-subv-backup.tmp")
      = (Except.ok (),
         if cfg.deleteOk then [Op.delSubvol (gen_rand_subvolpath parent base cfg.seed), Op.unlinkFs (parent ++ "/.btrfs-subv-backup.tmp")]
         else [Op.delSubvolFail (gen_rand_subvolpath parent base cfg.seed)]) := by
    have h1 := hcl.1
    have h2 := hcl.2
    cases hcc : convertCleanup cfg
      (applyOps (applyOps fs0 ([Op.touch (parent ++ "/.btrfs-subv-backup.tmp") cfg.fresh] ++ [Op.mkSubvol (gen_rand_subvolpath parent base cfg.seed) cfg.fresh])) [Op.copystatFs (parent ++ "/" ++ base) (parent ++ "/.btrfs-subv-backup.tmp"), Op.setTree (gen_rand_subvolpath parent base cfg.seed) (copytree (CTCfg.mk cfg.euid cfg.fresh cfg.canReflink cfg.method) (Node.dir m ch) (Node.dir cfg.fresh [])).dest]) (gen_rand_subvolpath parent base cfg.seed) (parent ++ "/.btrfs-subv-backup.tmp") with
    | mk fst snd =>
      rw [hcc] at h1 h2
      simp only at h1 h2
      rw [h1, h2]
  simp only [hclfull]
  by_cases hd : cfg.deleteOk <;> simp [hd]

/-- Claim C5, amended: once the temporary subvolume has been created, the
cleanup phase runs whether the protocol body succeeds or raises — the trace
always contains a `btrfs subvolume delete` attempt — and the call's result is
always exactly the body's result (the cleanup masks nothing); but the cleanup
attempts the subvolume delete first, unconditionally, and unlinks the
placeholder only when that delete succeeded, so after a successful conversion
(where the temporary name was renamed away and the delete attempt fails) no
unlink is ever attempted, the placeholder file survives, and only the
temporary name is gone. -/
theorem c5_amended_thm (cfg : ConvCfg) (fs0 : FS) (parent base : String)
    (e : FsEnt) (m : FileMeta) (ch : List (String × Node))
    (hkeys : (fsKeys fs0).Nodup)
    (hlook : fsLookup fs0 (parent ++ "/" ++ base) = some e)
    (hnode : e.node = Node.dir m ch) (hino : e.ino ≠ 256)
    (hcreate : cfg.createOk = true)
    (ht0 : fsLookup fs0 (gen_rand_subvolpath parent base cfg.seed) = none)
    (ho0 : fsLookup fs0 (parent ++ "/.btrfs-subv-backup.old") = none)
    (hdc : (parent ++ "/" ++ base) ≠ (parent ++ "/.btrfs-subv-backup.tmp"))
    (hdt : (parent ++ "/" ++ base) ≠ (gen_rand_subvolpath parent base cfg.seed))
    (hdo : (parent ++ "/" ++ base) ≠ (parent ++ "/.btrfs-subv-backup.old"))
    (htc : (gen_rand_subvolpath parent base cfg.seed) ≠ (parent ++ "/.btrfs-subv-backup.tmp"))
    (hto : (gen_rand_subvolpath parent base cfg.seed) ≠ (parent ++ "/.btrfs-subv-backup.old"))
    (hoc : (parent ++ "/.btrfs-subv-backup.old") ≠ (parent ++ "/.btrfs-subv-backup.tmp")) :
    ((convert_dir_to_subv cfg fs0 parent base).2.any isDelAttempt = true) ∧
    (convert_dir_to_subv cfg fs0 parent base).1 = (convertBody cfg (applyOps fs0 ([Op.touch (parent ++ "/.btrfs-subv-backup.tmp") cfg.fresh] ++ [Op.mkSubvol (gen_rand_subvolpath parent base cfg.seed) cfg.fresh])) (parent ++ "/" ++ base) (gen_rand_subvolpath parent base cfg.seed) (parent ++ "/.btrfs-subv-backup.tmp") (parent ++ "/.btrfs-subv-backup.old")).1 ∧
    ((convertBody cfg (applyOps fs0 ([Op.touch (parent ++ "/.btrfs-subv-backup.tmp") cfg.fresh] ++ [Op.mkSubvol (gen_rand_subvolpath parent base cfg.seed) cfg.fresh])) (parent ++ "/" ++ base) (gen_rand_subvolpath parent base cfg.seed) (parent ++ "/.btrfs-subv-backup.tmp") (parent ++ "/.btrfs-subv-backup.old")).1 = Except.ok true →
      (fsLookup (applyOps fs0 (convert_dir_to_subv cfg fs0 parent base).2) (parent ++ "/.btrfs-subv-backup.tmp")).isSome = true ∧
      fsLookup (applyOps fs0 (convert_dir_to_subv cfg fs0 parent base).2) (gen_rand_subvolpath parent base cfg.seed) = none ∧
      ((convert_dir_to_subv cfg fs0 parent base).2.any isUnlinkOp) = false) := by
  have hco : (parent ++ "/.btrfs-subv-backup.tmp") ≠ (parent ++ "/.btrfs-subv-backup.old") := fun hh => hoc hh.symm
  have hcd : (parent ++ "/.btrfs-subv-backup.tmp") ≠ (parent ++ "/" ++ base) := fun hh => hdc hh.symm
  have hct3 : (parent ++ "/.btrfs-subv-backup.tmp") ≠ (gen_rand_subvolpath parent base cfg.seed) := fun hh => htc hh.symm
  have htd : (gen_rand_subvolpath parent base cfg.seed) ≠ (parent ++ "/" ++ base) := fun hh => hdt hh.symm
  have hod : (parent ++ "/.btrfs-subv-backup.old") ≠ (parent ++ "/" ++ base) := fun hh => hdo hh.symm
  have hot2 : (parent ++ "/.btrfs-subv-backup.old") ≠ (gen_rand_subvolpath parent base cfg.seed) := fun hh => hto hh.symm
  have hnodeAt : nodeAt (applyOps fs0 ([Op.touch (parent ++ "/.btrfs-subv-backup.tmp") cfg.fresh] ++ [Op.mkSubvol (gen_rand_subvolpath parent base cfg.seed) cfg.fresh])) (parent ++ "/" ++ base) = Node.dir m ch := by
    show nodeAt (fsInsert (fsInsert fs0 _ _) _ _) _ = _
    unfold nodeAt
    rw [fsLookup_fsInsert_ne _ _ _ _ hdt, fsLookup_fsInsert_ne _ _ _ _ hdc, hlook]
    simp [hnode]
  cases hcase : ((copytree (CTCfg.mk cfg.euid cfg.fresh cfg.canReflink cfg.method) (Node.dir m ch) (Node.dir cfg.fresh []))).err with
  | none =>
    have hshape := convert_success_shape cfg fs0 parent base e m ch hkeys hlook
      hnode hino hcreate ht0 ho0 hdc hdt hdo htc hto hoc hcase
    have hctok2 : (copytree (CTCfg.mk cfg.euid cfg.fresh cfg.canReflink cfg.method)
        (nodeAt (applyOps fs0 ([Op.touch (parent ++ "/.btrfs-subv-backup.tmp") cfg.fresh] ++ [Op.mkSubvol (gen_rand_subvolpath parent base cfg.seed) cfg.fresh])) (parent ++ "/" ++ base)) (Node.dir cfg.fresh [])).err
        = none := by
      rw [hnodeAt]
      exact hcase
    have hold : fsLookup (applyOps (applyOps fs0 ([Op.touch (parent ++ "/.btrfs-subv-backup.tmp") cfg.fresh] ++ [Op.mkSubvol (gen_rand_subvolpath parent base cfg.seed) cfg.fresh]))
        [Op.copystatFs (parent ++ "/" ++ base) (parent ++ "/.btrfs-subv-backup.tmp"),
         Op.setTree (gen_rand_subvolpath parent base cfg.seed) (copytree (CTCfg.mk cfg.euid cfg.fresh cfg.canReflink cfg.method)
           (nodeAt (applyOps fs0 ([Op.touch (parent ++ "/.btrfs-subv-backup.tmp") cfg.fresh] ++ [Op.mkSubvol (gen_rand_subvolpath parent base cfg.seed) cfg.fresh])) (parent ++ "/" ++ base)) (Node.dir cfg.fresh [])).dest])
        (parent ++ "/.btrfs-subv-backup.old") = none := by
      rw [← applyOps_append]
      rw [fsLookup_applyOps_notWritten _ _ _ ?_, ho0]
      intro op hop
      simp only [List.cons_append, List.nil_append, List.mem_cons,
        List.not_mem_nil, or_false] at hop
      rcases hop with rfl | rfl | rfl | rfl <;> simp [opWrites, hoc, hod, hot2]
    have hbody := convertBody_success cfg (applyOps fs0 ([Op.touch (parent ++ "/.btrfs-subv-backup.tmp") cfg.fresh] ++ [Op.mkSubvol (gen_rand_subvolpath parent base cfg.seed) cfg.fresh]))
      (parent ++ "/" ++ base) (gen_rand_subvolpath parent base cfg.seed) (parent ++ "/.btrfs-subv-backup.tmp") (parent ++ "/.btrfs-subv-backup.old") hctok2 hold
    refine ⟨?_, ?_, ?_⟩
    · rw [hshape]
      by_cases he : cfg.euid = 0 <;>
        simp [convertOpsSuccess, isDelAttempt, he]
    · rw [hshape, hbody]
    · intro hbok
      have h2t : fsLookup (applyOps fs0 [Op.touch (parent ++ "/.btrfs-subv-backup.tmp") cfg.fresh, Op.mkSubvol (gen_rand_subvolpath parent base cfg.seed) cfg.fresh]) (gen_rand_subvolpath parent base cfg.seed)
          = some (FsEnt.mk 256 (Node.dir cfg.fresh [])) := by
        show fsLookup (fsInsert (fsInsert fs0 _ _) _ _) _ = _
        exact fsLookup_fsInsert_self _ _ _
      have h3t : fsLookup (applyOps fs0 [Op.touch (parent ++ "/.btrfs-subv-backup.tmp") cfg.fresh, Op.mkSubvol (gen_rand_subvolpath parent base cfg.seed) cfg.fresh, Op.copystatFs (parent ++ "/" ++ base) (parent ++ "/.btrfs-subv-backup.tmp")]) (gen_rand_subvolpath parent base cfg.seed)
          = some (FsEnt.mk 256 (Node.dir cfg.fresh [])) := by
        show fsLookup (applyOp (applyOps fs0 [Op.touch (parent ++ "/.btrfs-subv-backup.tmp") cfg.fresh, Op.mkSubvol (gen_rand_subvolpath parent base cfg.seed) cfg.fresh]) (Op.copystatFs (parent ++ "/" ++ base) (parent ++ "/.btrfs-subv-backup.tmp"))) _ = _
        rw [fsLookup_applyOp_notWritten _ _ _ (by simp [opWrites, htc]), h2t]
      have h4t : fsLookup (applyOps fs0 [Op.touch (parent ++ "/.btrfs-subv-backup.tmp") cfg.fresh, Op.mkSubvol (gen_rand_subvolpath parent base cfg.seed) cfg.fresh, Op.copystatFs (parent ++ "/" ++ base) (parent ++ "/.btrfs-subv-backup.tmp"), Op.setTree (gen_rand_subvolpath parent base cfg.seed) (copytree (CTCfg.mk cfg.euid cfg.fresh cfg.canReflink cfg.method) (Node.dir m ch) (Node.dir cfg.fresh [])).dest]) (gen_rand_subvolpath parent base cfg.seed)
          = some (FsEnt.mk 256 (copytree (CTCfg.mk cfg.euid cfg.fresh cfg.canReflink cfg.method) (Node.dir m ch) (Node.dir cfg.fresh [])).dest) := by
        show fsLookup (fsMapEnt (applyOps fs0 [Op.touch (parent ++ "/.btrfs-subv-backup.tmp") cfg.fresh, Op.mkSubvol (gen_rand_subvolpath parent base cfg.seed) cfg.fresh, Op.copystatFs (parent ++ "/" ++ base) (parent ++ "/.btrfs-subv-backup.tmp")]) _ _) _ = _
        rw [fsLookup_fsMapEnt_self, h3t]
        rfl
      have h4d : fsLookup (applyOps fs0 [Op.touch (parent ++ "/.btrfs-subv-backup.tmp") cfg.fresh, Op.mkSubvol (gen_rand_subvolpath parent base cfg.seed) cfg.fresh, Op.copystatFs (parent ++ "/" ++ base) (parent ++ "/.btrfs-subv-backup.tmp"), Op.setTree (gen_rand_subvolpath parent base cfg.seed) (copytree (CTCfg.mk cfg.euid cfg.fresh cfg.canReflink cfg.method) (Node.dir m ch) (Node.dir cfg.fresh [])).dest]) (parent ++ "/" ++ base) = some e := by
        rw [fsLookup_applyOps_notWritten _ _ _ ?_, hlook]
        intro op hop
        simp only [List.mem_cons, List.not_mem_nil, or_false] at hop
        rcases hop with rfl | rfl | rfl | rfl <;> simp [opWrites, hdc, hdt]
      have h5t : fsLookup (applyOps fs0 [Op.touch (parent ++ "/.btrfs-subv-backup.tmp") cfg.fresh, Op.mkSubvol (gen_rand_subvolpath parent base cfg.seed) cfg.fresh, Op.copystatFs (parent ++ "/" ++ base) (parent ++ "/.btrfs-subv-backup.tmp"), Op.setTree (gen_rand_subvolpath parent base cfg.seed) (copytree (CTCfg.mk cfg.euid cfg.fresh cfg.canReflink cfg.method) (Node.dir m ch) (Node.dir cfg.fresh [])).dest, Op.renameFs (parent ++ "/" ++ base) (parent ++ "/.btrfs-subv-backup.old")]) (gen_rand_subvolpath parent base cfg.seed)
          = some (FsEnt.mk 256 (copytree (CTCfg.mk cfg.euid cfg.fresh cfg.canReflink cfg.method) (Node.dir m ch) (Node.dir cfg.fresh [])).dest) := by
        show fsLookup (applyOp (applyOps fs0 [Op.touch (parent ++ "/.btrfs-subv-backup.tmp") cfg.fresh, Op.mkSubvol (gen_rand_subvolpath parent base cfg.seed) cfg.fresh, Op.copystatFs (parent ++ "/" ++ base) (parent ++ "/.btrfs-subv-backup.tmp"), Op.setTree (gen_rand_subvolpath parent base cfg.seed) (copytree (CTCfg.mk cfg.euid cfg.fresh cfg.canReflink cfg.method) (Node.dir m ch) (Node.dir cfg.fresh [])).dest]) (Op.renameFs (parent ++ "/" ++ base) (parent ++ "/.btrfs-subv-backup.old"))) _ = _
        simp only [applyOp, h4d]
        rw [fsLookup_fsInsert_ne _ _ _ _ hto,
          fsLookup_fsRemove_ne _ _ _ htd, h4t]
      have h6t : fsLookup (applyOps fs0
          [Op.touch (parent ++ "/.btrfs-subv-backup.tmp") cfg.fresh, Op.mkSubvol (gen_rand_subvolpath parent base cfg.seed) cfg.fresh, Op.copystatFs (parent ++ "/" ++ base) (parent ++ "/.btrfs-subv-backup.tmp"), Op.setTree (gen_rand_subvolpath parent base cfg.seed) (copytree (CTCfg.mk cfg.euid cfg.fresh cfg.canReflink cfg.method) (Node.dir m ch) (Node.dir cfg.fresh [])).dest, Op.renameFs (parent ++ "/" ++ base) (parent ++ "/.btrfs-subv-backup.old"), Op.renameFs (gen_rand_subvolpath parent base cfg.seed) (parent ++ "/" ++ base)]) (gen_rand_subvolpath parent base cfg.seed) = none := by
        show fsLookup (applyOp (applyOps fs0
          [Op.touch (parent ++ "/.btrfs-subv-backup.tmp") cfg.fresh, Op.mkSubvol (gen_rand_subvolpath parent base cfg.seed) cfg.fresh, Op.copystatFs (parent ++ "/" ++ base) (parent ++ "/.btrfs-subv-backup.tmp"), Op.setTree (gen_rand_subvolpath parent base cfg.seed) (copytree (CTCfg.mk cfg.euid cfg.fresh cfg.canReflink cfg.method) (Node.dir m ch) (Node.dir cfg.fresh [])).dest, Op.renameFs (parent ++ "/" ++ base) (parent ++ "/.btrfs-subv-backup.old")]) (Op.renameFs (gen_rand_subvolpath parent base cfg.seed) (parent ++ "/" ++ base))) _ = _
        simp only [applyOp, h5t]
        rw [fsLookup_fsInsert_ne _ _ _ _ htd]
        exact fsLookup_fsRemove_self _ _ (fsKeys_nodup_applyOps _ _ hkeys)
      have g1 : (fsLookup (applyOps fs0 [Op.touch (parent ++ "/.btrfs-subv-backup.tmp") cfg.fresh]) (parent ++ "/.btrfs-subv-backup.tmp")).isSome = true := by
        show (fsLookup (fsInsert fs0 _ _) _).isSome = true
        rw [fsLookup_fsInsert_self]
        rfl
      have g2 : (fsLookup (applyOps fs0 [Op.touch (parent ++ "/.btrfs-subv-backup.tmp") cfg.fresh, Op.mkSubvol (gen_rand_subvolpath parent base cfg.seed) cfg.fresh]) (parent ++ "/.btrfs-subv-backup.tmp")).isSome = true := by
        show (fsLookup (applyOp (applyOps fs0 [Op.touch (parent ++ "/.btrfs-subv-backup.tmp") cfg.fresh]) (Op.mkSubvol (gen_rand_subvolpath parent base cfg.seed) cfg.fresh)) _).isSome = true
        rw [fsLookup_applyOp_notWritten _ _ _ (by simp [opWrites, hct3])]
        exact g1
      have g3 : (fsLookup (applyOps fs0 [Op.touch (parent ++ "/.btrfs-subv-backup.tmp") cfg.fresh, Op.mkSubvol (gen_rand_subvolpath parent base cfg.seed) cfg.fresh, Op.copystatFs (parent ++ "/" ++ base) (parent ++ "/.btrfs-subv-backup.tmp")]) (parent ++ "/.btrfs-subv-backup.tmp")).isSome = true := by
        show (fsLookup (applyOp (applyOps fs0 [Op.touch (parent ++ "/.btrfs-subv-backup.tmp") cfg.fresh, Op.mkSubvol (gen_rand_subvolpath parent base cfg.seed) cfg.fresh]) (Op.copystatFs (parent ++ "/" ++ base) (parent ++ "/.btrfs-subv-backup.tmp"))) _).isSome = true
        exact copystat_preserves_isSome _ _ _ g2
      have g4 : (fsLookup (applyOps fs0 [Op.touch (parent ++ "/.btrfs-subv-backup.tmp") cfg.fresh, Op.mkSubvol (gen_rand_subvolpath parent base cfg.seed) cfg.fresh, Op.copystatFs (parent ++ "/" ++ base) (parent ++ "/.btrfs-subv-backup.tmp"), Op.setTree (gen_rand_subvolpath parent base cfg.seed) (copytree (CTCfg.mk cfg.euid cfg.fresh cfg.canReflink cfg.method) (Node.dir m ch) (Node.dir cfg.fresh [])).dest]) (parent ++ "/.btrfs-subv-backup.tmp")).isSome
          = true := by
        show (fsLookup (applyOp (applyOps fs0 [Op.touch (parent ++ "/.btrfs-subv-backup.tmp") cfg.fresh, Op.mkSubvol (gen_rand_subvolpath parent base cfg.seed) cfg.fresh, Op.copystatFs (parent ++ "/" ++ base) (parent ++ "/.btrfs-subv-backup.tmp")]) (Op.setTree (gen_rand_subvolpath parent base cfg.seed) (copytree (CTCfg.mk cfg.euid cfg.fresh cfg.canReflink cfg.method) (Node.dir m ch) (Node.dir cfg.fresh [])).dest)) _).isSome
          = true
        rw [fsLookup_applyOp_notWritten _ _ _ (by simp [opWrites, hct3])]
        exact g3
      have hC : (fsLookup (applyOps fs0 (convertOpsSuccess cfg parent base
          (copytree (CTCfg.mk cfg.euid cfg.fresh cfg.canReflink cfg.method) (Node.dir m ch) (Node.dir cfg.fresh [])).dest)) (parent ++ "/.btrfs-subv-backup.tmp")).isSome = true := by
        have hlist : convertOpsSuccess cfg parent base (copytree (CTCfg.mk cfg.euid cfg.fresh cfg.canReflink cfg.method) (Node.dir m ch) (Node.dir cfg.fresh [])).dest
            = [Op.touch (parent ++ "/.btrfs-subv-backup.tmp") cfg.fresh, Op.mkSubvol (gen_rand_subvolpath parent base cfg.seed) cfg.fresh, Op.copystatFs (parent ++ "/" ++ base) (parent ++ "/.btrfs-subv-backup.tmp"), Op.setTree (gen_rand_subvolpath parent base cfg.seed) (copytree (CTCfg.mk cfg.euid cfg.fresh cfg.canReflink cfg.method) (Node.dir m ch) (Node.dir cfg.fresh [])).dest]
              ++ ([Op.renameFs (parent ++ "/" ++ base) (parent ++ "/.btrfs-subv-backup.old"), Op.renameFs (gen_rand_subvolpath parent base cfg.seed) (parent ++ "/" ++ base), Op.copystatFs (parent ++ "/.btrfs-subv-backup.tmp") (parent ++ "/" ++ base)]
                ++ (if cfg.euid = 0 then [Op.chownFs (parent ++ "/.btrfs-subv-backup.old") (parent ++ "/" ++ base)] else []) ++ [Op.rmtreeFs (parent ++ "/.btrfs-subv-backup.old"), Op.delSubvolFail (gen_rand_subvolpath parent base cfg.seed)]) := by
          simp [convertOpsSuccess]
        rw [hlist, applyOps_append]
        rw [fsLookup_applyOps_notWritten _ _ _ ?_]
        · exact g4
        · intro op hop
          by_cases he : cfg.euid = 0 <;>
            simp only [he, if_true, if_false, List.cons_append, List.nil_append,
              List.mem_cons, List.not_mem_nil, or_false] at hop
          · rcases hop with rfl | rfl | rfl | rfl | rfl | rfl <;>
              simp [opWrites, hcd, hco, hct3]
          · rcases hop with rfl | rfl | rfl | rfl | rfl <;>
              simp [opWrites, hcd, hco, hct3]
      have hT : fsLookup (applyOps fs0 (convertOpsSuccess cfg parent base
          (copytree (CTCfg.mk cfg.euid cfg.fresh cfg.canReflink cfg.method) (Node.dir m ch) (Node.dir cfg.fresh [])).dest)) (gen_rand_subvolpath parent base cfg.seed) = none := by
        have hlist : convertOpsSuccess cfg parent base (copytree (CTCfg.mk cfg.euid cfg.fresh cfg.canReflink cfg.method) (Node.dir m ch) (Node.dir cfg.fresh [])).dest
            = [Op.touch (parent ++ "/.btrfs-subv-backup.tmp") cfg.fresh, Op.mkSubvol (gen_rand_subvolpath parent base cfg.seed) cfg.fresh, Op.copystatFs (parent ++ "/" ++ base) (parent ++ "/.btrfs-subv-backup.tmp"), Op.setTree (gen_rand_subvolpath parent base cfg.seed) (copytree (CTCfg.mk cfg.euid cfg.fresh cfg.canReflink cfg.method) (Node.dir m ch) (Node.dir cfg.fresh [])).dest, Op.renameFs (parent ++ "/" ++ base) (parent ++ "/.btrfs-subv-backup.old"), Op.renameFs (gen_rand_subvolpath parent base cfg.seed) (parent ++ "/" ++ base)]
              ++ ([Op.copystatFs (parent ++ "/.btrfs-subv-backup.tmp") (parent ++ "/" ++ base)]
                ++ (if cfg.euid = 0 then [Op.chownFs (parent ++ "/.btrfs-subv-backup.old") (parent ++ "/" ++ base)] else []) ++ [Op.rmtreeFs (parent ++ "/.btrfs-subv-backup.old"), Op.delSubvolFail (gen_rand_subvolpath parent base cfg.seed)]) := by
          simp [convertOpsSuccess]
        rw [hlist, applyOps_append]
        rw [fsLookup_applyOps_notWritten _ _ _ ?_]
        · exact h6t
        · intro op hop
          by_cases he : cfg.euid = 0 <;>
            simp only [he, if_true, if_false, List.cons_append, List.nil_append,
              List.mem_cons, List.not_mem_nil, or_false] at hop
          · rcases hop with rfl | rfl | rfl | rfl <;>
              simp [opWrites, htd, hot2.symm, hto]
          · rcases hop with rfl | rfl | rfl <;>
              simp [opWrites, htd, hot2.symm, hto]
      rw [hshape]
      exact ⟨hC, hT, by
        by_cases he : cfg.euid = 0 <;> simp [convertOpsSuccess, isUnlinkOp, he]⟩
  | some e2 =>
    have hshape := convert_error_shape cfg fs0 parent base e m ch e2 hlook
      hnode hino hcreate ht0 hdc hdt htc hcase
    have hcterr2 : (copytree (CTCfg.mk cfg.euid cfg.fresh cfg.canReflink cfg.method)
        (nodeAt (applyOps fs0 ([Op.touch (parent ++ "/.btrfs-subv-backup.tmp") cfg.fresh] ++ [Op.mkSubvol (gen_rand_subvolpath parent base cfg.seed) cfg.fresh])) (parent ++ "/" ++ base)) (Node.dir cfg.fresh [])).err
        = some e2 := by
      rw [hnodeAt]
      exact hcase
    have hbody := convertBody_error cfg (applyOps fs0 ([Op.touch (parent ++ "/.btrfs-subv-backup.tmp") cfg.fresh] ++ [Op.mkSubvol (gen_rand_subvolpath parent base cfg.seed) cfg.fresh]))
      (parent ++ "/" ++ base) (gen_rand_subvolpath parent base cfg.seed) (parent ++ "/.btrfs-subv-backup.tmp") (parent ++ "/.btrfs-subv-backup.old") e2 hcterr2
    refine ⟨?_, ?_, ?_⟩
    · rw [hshape]
      by_cases hd : cfg.deleteOk <;> simp [isDelAttempt, hd]
    · rw [hshape, hbody]
    · intro hbok
      rw [hbody] at hbok
      exact absurd hbok (by simp)

/-- Claim C6: on the conversion protocol path the rename of the destination
to the backup path occurs strictly before the rename of the temporary
subvolume into the destination — the trace decomposes as a rename-free
prefix, the two renames adjacent and in that order, and a rename-free tail —
and the state between the two renames (the replay of the trace up to and
including the first rename) has the destination absent and the original
entry, with its full tree and inode, parked at the backup path. -/
theorem c6_rename_order (cfg : ConvCfg) (fs0 : FS) (parent base : String)
    (e : FsEnt) (m : FileMeta) (ch : List (String × Node))
    (hkeys : (fsKeys fs0).Nodup)
    (hlook : fsLookup fs0 (parent ++ "/" ++ base) = some e)
    (hnode : e.node = Node.dir m ch) (hino : e.ino ≠ 256)
    (hcreate : cfg.createOk = true)
    (ht0 : fsLookup fs0 (gen_rand_subvolpath parent base cfg.seed) = none)
    (ho0 : fsLookup fs0 (parent ++ "/.btrfs-subv-backup.old") = none)
    (hdc : (parent ++ "/" ++ base) ≠ (parent ++ "/.btrfs-subv-backup.tmp"))
    (hdt : (parent ++ "/" ++ base) ≠ (gen_rand_subvolpath parent base cfg.seed))
    (hdo : (parent ++ "/" ++ base) ≠ (parent ++ "/.btrfs-subv-backup.old"))
    (htc : (gen_rand_subvolpath parent base cfg.seed) ≠ (parent ++ "/.btrfs-subv-backup.tmp"))
    (hto : (gen_rand_subvolpath parent base cfg.seed) ≠ (parent ++ "/.btrfs-subv-backup.old"))
    (hoc : (parent ++ "/.btrfs-subv-backup.old") ≠ (parent ++ "/.btrfs-subv-backup.tmp"))
    (hctok : (copytree (CTCfg.mk cfg.euid cfg.fresh cfg.canReflink cfg.method) (Node.dir m ch) (Node.dir cfg.fresh [])).err = none) :
    convert_dir_to_subv cfg fs0 parent base
      = (Except.ok true,
         [Op.touch (parent ++ "/.btrfs-subv-backup.tmp") cfg.fresh, Op.mkSubvol (gen_rand_subvolpath parent base cfg.seed) cfg.fresh, Op.copystatFs (parent ++ "/" ++ base) (parent ++ "/.btrfs-subv-backup.tmp"), Op.setTree (gen_rand_subvolpath parent base cfg.seed) (copytree (CTCfg.mk cfg.euid cfg.fresh cfg.canReflink cfg.method) (Node.dir m ch) (Node.dir cfg.fresh [])).dest]
         ++ [Op.renameFs (parent ++ "/" ++ base) (parent ++ "/.btrfs-subv-backup.old"), Op.renameFs (gen_rand_subvolpath parent base cfg.seed) (parent ++ "/" ++ base)]
         ++ ([Op.copystatFs (parent ++ "/.btrfs-subv-backup.tmp") (parent ++ "/" ++ base)] ++ (if cfg.euid = 0 then [Op.chownFs (parent ++ "/.btrfs-subv-backup.old") (parent ++ "/" ++ base)] else [])
             ++ [Op.rmtreeFs (parent ++ "/.btrfs-subv-backup.old"), Op.delSubvolFail (gen_rand_subvolpath parent base cfg.seed)])) ∧
    ([Op.touch (parent ++ "/.btrfs-subv-backup.tmp") cfg.fresh, Op.mkSubvol (gen_rand_subvolpath parent base cfg.seed) cfg.fresh, Op.copystatFs (parent ++ "/" ++ base) (parent ++ "/.btrfs-subv-backup.tmp"), Op.setTree (gen_rand_subvolpath parent base cfg.seed) (copytree (CTCfg.mk cfg.euid cfg.fresh cfg.canReflink cfg.method) (Node.dir m ch) (Node.dir cfg.fresh [])).dest].all (fun o => !(isRenameOp o)) = true) ∧
    (([Op.copystatFs (parent ++ "/.btrfs-subv-backup.tmp") (parent ++ "/" ++ base)] ++ (if cfg.euid = 0 then [Op.chownFs (parent ++ "/.btrfs-subv-backup.old") (parent ++ "/" ++ base)] else [])
        ++ [Op.rmtreeFs (parent ++ "/.btrfs-subv-backup.old"), Op.delSubvolFail (gen_rand_subvolpath parent base cfg.seed)]).all (fun o => !(isRenameOp o)) = true) ∧
    fsLookup (applyOps fs0 ([Op.touch (parent ++ "/.btrfs-subv-backup.tmp") cfg.fresh, Op.mkSubvol (gen_rand_subvolpath parent base cfg.seed) cfg.fresh, Op.copystatFs (parent ++ "/" ++ base) (parent ++ "/.btrfs-subv-backup.tmp"), Op.setTree (gen_rand_subvolpath parent base cfg.seed) (copytree (CTCfg.mk cfg.euid cfg.fresh cfg.canReflink cfg.method) (Node.dir m ch) (Node.dir cfg.fresh [])).dest] ++ [Op.renameFs (parent ++ "/" ++ base) (parent ++ "/.btrfs-subv-backup.old")])) (parent ++ "/" ++ base) = none ∧
    fsLookup (applyOps fs0 ([Op.touch (parent ++ "/.btrfs-subv-backup.tmp") cfg.fresh, Op.mkSubvol (gen_rand_subvolpath parent base cfg.seed) cfg.fresh, Op.copystatFs (parent ++ "/" ++ base) (parent ++ "/.btrfs-subv-backup.tmp"), Op.setTree (gen_rand_subvolpath parent base cfg.seed) (copytree (CTCfg.mk cfg.euid cfg.fresh cfg.canReflink cfg.method) (Node.dir m ch) (Node.dir cfg.fresh [])).dest] ++ [Op.renameFs (parent ++ "/" ++ base) (parent ++ "/.btrfs-subv-backup.old")])) (parent ++ "/.btrfs-subv-backup.old") = some e := by
  have hshape := convert_success_shape cfg fs0 parent base e m ch hkeys hlook
    hnode hino hcreate ht0 ho0 hdc hdt hdo htc hto hoc hctok
  have h4d : fsLookup (applyOps fs0 [Op.touch (parent ++ "/.btrfs-subv-backup.tmp") cfg.fresh, Op.mkSubvol (gen_rand_subvolpath parent base cfg.seed) cfg.fresh, Op.copystatFs (parent ++ "/" ++ base) (parent ++ "/.btrfs-subv-backup.tmp"), Op.setTree (gen_rand_subvolpath parent base cfg.seed) (copytree (CTCfg.mk cfg.euid cfg.fresh cfg.canReflink cfg.method) (Node.dir m ch) (Node.dir cfg.fresh [])).dest]) (parent ++ "/" ++ base) = some e := by
    rw [fsLookup_applyOps_notWritten _ _ _ ?_, hlook]
    intro op hop
    simp only [List.mem_cons, List.not_mem_nil, or_false] at hop
    rcases hop with rfl | rfl | rfl | rfl <;> simp [opWrites, hdc, hdt]
  refine ⟨?_, rfl, ?_, ?_, ?_⟩
  · rw [hshape]
    by_cases he : cfg.euid = 0 <;> simp [convertOpsSuccess, he]
  · by_cases he : cfg.euid = 0 <;> simp [he, isRenameOp]
  · show fsLookup (applyOp (applyOps fs0 [Op.touch (parent ++ "/.btrfs-subv-backup.tmp") cfg.fresh, Op.mkSubvol (gen_rand_subvolpath parent base cfg.seed) cfg.fresh, Op.copystatFs (parent ++ "/" ++ base) (parent ++ "/.btrfs-subv-backup.tmp"), Op.setTree (gen_rand_subvolpath parent base cfg.seed) (copytree (CTCfg.mk cfg.euid cfg.fresh cfg.canReflink cfg.method) (Node.dir m ch) (Node.dir cfg.fresh [])).dest]) (Op.renameFs (parent ++ "/" ++ base) (parent ++ "/.btrfs-subv-backup.old"))) _ = _
    simp only [applyOp, h4d]
    rw [fsLookup_fsInsert_ne _ _ _ _ hdo]
    exact fsLookup_fsRemove_self _ _ (fsKeys_nodup_applyOps _ _ hkeys)
  · show fsLookup (applyOp (applyOps fs0 [Op.touch (parent ++ "/.btrfs-subv-backup.tmp") cfg.fresh, Op.mkSubvol (gen_rand_subvolpath parent base cfg.seed) cfg.fresh, Op.copystatFs (parent ++ "/" ++ base) (parent ++ "/.btrfs-subv-backup.tmp"), Op.setTree (gen_rand_subvolpath parent base cfg.seed) (copytree (CTCfg.mk cfg.euid cfg.fresh cfg.canReflink cfg.method) (Node.dir m ch) (Node.dir cfg.fresh [])).dest]) (Op.renameFs (parent ++ "/" ++ base) (parent ++ "/.btrfs-subv-backup.old"))) _ = _
    simp only [applyOp, h4d]
    exact fsLookup_fsInsert_self _ _ _

/-- Claim C5, counterexample: a fully successful conversion with a functional
external delete collaborator still leaves the placeholder file behind — no
unlink is ever attempted, because the cleanup's `btrfs subvolume delete` of
the renamed-away temporary name fails first and the caught
`CalledProcessError` skips the `os.unlink` line. -/
theorem c5_counterexample :
    (convert_dir_to_subv exConvCfg exConvFs "/mnt" "d").1 = Except.ok true ∧
    exConvCfg.deleteOk = true ∧
    ((convert_dir_to_subv exConvCfg exConvFs "/mnt" "d").2.any isUnlinkOp) = false ∧
    (fsLookup (convertRun exConvCfg exConvFs "/mnt" "d").2
      "/mnt/.btrfs-subv-backup.tmp").isSome = true ∧
    fsLookup exConvFs "/mnt/.btrfs-subv-backup.tmp" = none :=
  ⟨rfl, rfl, rfl, rfl, rfl⟩

/-- Witness for `c5_amended_thm` at the concrete conversion fixture. -/
theorem c5_amended_witness :
    (fsKeys exConvFs).Nodup ∧
    fsLookup exConvFs ("/mnt" ++ "/" ++ "d") = some (FsEnt.mk 77 (Node.dir (FileMeta.mk 493 9 9 100 100) [("sub", Node.dir (FileMeta.mk 448 2 2 0 0) [])])) ∧
    ((FsEnt.mk 77 (Node.dir (FileMeta.mk 493 9 9 100 100) [("sub", Node.dir (FileMeta.mk 448 2 2 0 0) [])]))).node = Node.dir (FileMeta.mk 493 9 9 100 100) [("sub", Node.dir (FileMeta.mk 448 2 2 0 0) [])] ∧
    ((FsEnt.mk 77 (Node.dir (FileMeta.mk 493 9 9 100 100) [("sub", Node.dir (FileMeta.mk 448 2 2 0 0) [])]))).ino ≠ 256 ∧
    exConvCfg.createOk = true ∧
    fsLookup exConvFs (gen_rand_subvolpath "/mnt" "d" exConvCfg.seed) = none ∧
    fsLookup exConvFs ("/mnt" ++ "/.btrfs-subv-backup.old") = none ∧
    ("/mnt" ++ "/" ++ "d") ≠ ("/mnt" ++ "/.btrfs-subv-backup.tmp") ∧
    ("/mnt" ++ "/" ++ "d") ≠ (gen_rand_subvolpath "/mnt" "d" exConvCfg.seed) ∧
    ("/mnt" ++ "/" ++ "d") ≠ ("/mnt" ++ "/.btrfs-subv-backup.old") ∧
    (gen_rand_subvolpath "/mnt" "d" exConvCfg.seed) ≠ ("/mnt" ++ "/.btrfs-subv-backup.tmp") ∧
    (gen_rand_subvolpath "/mnt" "d" exConvCfg.seed) ≠ ("/mnt" ++ "/.btrfs-subv-backup.old") ∧
    ("/mnt" ++ "/.btrfs-subv-backup.old") ≠ ("/mnt" ++ "/.btrfs-subv-backup.tmp") ∧
    (((convert_dir_to_subv exConvCfg exConvFs "/mnt" "d").2.any isDelAttempt = true) ∧
     (convert_dir_to_subv exConvCfg exConvFs "/mnt" "d").1 = (convertBody exConvCfg (applyOps exConvFs ([Op.touch ("/mnt" ++ "/.btrfs-subv-backup.tmp") exConvCfg.fresh] ++ [Op.mkSubvol (gen_rand_subvolpath "/mnt" "d" exConvCfg.seed) exConvCfg.fresh])) ("/mnt" ++ "/" ++ "d") (gen_rand_subvolpath "/mnt" "d" exConvCfg.seed) ("/mnt" ++ "/.btrfs-subv-backup.tmp") ("/mnt" ++ "/.btrfs-subv-backup.old")).1 ∧
     ((convertBody exConvCfg (applyOps exConvFs ([Op.touch ("/mnt" ++ "/.btrfs-subv-backup.tmp") exConvCfg.fresh] ++ [Op.mkSubvol (gen_rand_subvolpath "/mnt" "d" exConvCfg.seed) exConvCfg.fresh])) ("/mnt" ++ "/" ++ "d") (gen_rand_subvolpath "/mnt" "d" exConvCfg.seed) ("/mnt" ++ "/.btrfs-subv-backup.tmp") ("/mnt" ++ "/.btrfs-subv-backup.old")).1 = Except.ok true →
       (fsLookup (applyOps exConvFs (convert_dir_to_subv exConvCfg exConvFs "/mnt" "d").2) ("/mnt" ++ "/.btrfs-subv-backup.tmp")).isSome = true ∧
       fsLookup (applyOps exConvFs (convert_dir_to_subv exConvCfg exConvFs "/mnt" "d").2) (gen_rand_subvolpath "/mnt" "d" exConvCfg.seed) = none ∧
       ((convert_dir_to_subv exConvCfg exConvFs "/mnt" "d").2.any isUnlinkOp) = false)) :=
  ⟨by decide, rfl, rfl, by decide, rfl, rfl, rfl, by decide, by decide,
    by decide, by decide, by decide, by decide,
    c5_amended_thm exConvCfg exConvFs "/mnt" "d" (FsEnt.mk 77 (Node.dir (FileMeta.mk 493 9 9 100 100) [("sub", Node.dir (FileMeta.mk 448 2 2 0 0) [])])) (FileMeta.mk 493 9 9 100 100)
      [("sub", Node.dir (FileMeta.mk 448 2 2 0 0) [])]
      (by decide) rfl rfl (by decide) rfl rfl rfl (by decide) (by decide)
      (by decide) (by decide) (by decide) (by decide)⟩

/-- Witness for `c6_rename_order` at the concrete conversion fixture. -/
theorem c6_rename_order_witness :
    (fsKeys exConvFs).Nodup ∧
    fsLookup exConvFs ("/mnt" ++ "/" ++ "d") = some (FsEnt.mk 77 (Node.dir (FileMeta.mk 493 9 9 100 100) [("sub", Node.dir (FileMeta.mk 448 2 2 0 0) [])])) ∧
    ((FsEnt.mk 77 (Node.dir (FileMeta.mk 493 9 9 100 100) [("sub", Node.dir (FileMeta.mk 448 2 2 0 0) [])]))).node = Node.dir (FileMeta.mk 493 9 9 100 100) [("sub", Node.dir (FileMeta.mk 448 2 2 0 0) [])] ∧
    ((FsEnt.mk 77 (Node.dir (FileMeta.mk 493 9 9 100 100) [("sub", Node.dir (FileMeta.mk 448 2 2 0 0) [])]))).ino ≠ 256 ∧
    exConvCfg.createOk = true ∧
    fsLookup exConvFs (gen_rand_subvolpath "/mnt" "d" exConvCfg.seed) = none ∧
    fsLookup exConvFs ("/mnt" ++ "/.btrfs-subv-backup.old") = none ∧
    ("/mnt" ++ "/" ++ "d") ≠ ("/mnt" ++ "/.btrfs-subv-backup.tmp") ∧
    ("/mnt" ++ "/" ++ "d") ≠ (gen_rand_subvolpath "/mnt" "d" exConvCfg.seed) ∧
    ("/mnt" ++ "/" ++ "d") ≠ ("/mnt" ++ "/.btrfs-subv-backup.old") ∧
    (gen_rand_subvolpath "/mnt" "d" exConvCfg.seed) ≠ ("/mnt" ++ "/.btrfs-subv-backup.tmp") ∧
    (gen_rand_subvolpath "/mnt" "d" exConvCfg.seed) ≠ ("/mnt" ++ "/.btrfs-subv-backup.old") ∧
    ("/mnt" ++ "/.btrfs-subv-backup.old") ≠ ("/mnt" ++ "/.btrfs-subv-backup.tmp") ∧
    ((copytree (CTCfg.mk exConvCfg.euid exConvCfg.fresh exConvCfg.canReflink exConvCfg.method) (Node.dir (FileMeta.mk 493 9 9 100 100) [("sub", Node.dir (FileMeta.mk 448 2 2 0 0) [])]) (Node.dir exConvCfg.fresh []))).err = none ∧
    (convert_dir_to_subv exConvCfg exConvFs "/mnt" "d"
      = (Except.ok true,
         [Op.touch ("/mnt" ++ "/.btrfs-subv-backup.tmp") exConvCfg.fresh, Op.mkSubvol (gen_rand_subvolpath "/mnt" "d" exConvCfg.seed) exConvCfg.fresh, Op.copystatFs ("/mnt" ++ "/" ++ "d") ("/mnt" ++ "/.btrfs-subv-backup.tmp"), Op.setTree (gen_rand_subvolpath "/mnt" "d" exConvCfg.seed) (copytree (CTCfg.mk exConvCfg.euid exConvCfg.fresh exConvCfg.canReflink exConvCfg.method) (Node.dir (FileMeta.mk 493 9 9 100 100) [("sub", Node.dir (FileMeta.mk 448 2 2 0 0) [])]) (Node.dir exConvCfg.fresh [])).dest]
         ++ [Op.renameFs ("/mnt" ++ "/" ++ "d") ("/mnt" ++ "/.btrfs-subv-backup.old"), Op.renameFs (gen_rand_subvolpath "/mnt" "d" exConvCfg.seed) ("/mnt" ++ "/" ++ "d")]
         ++ ([Op.copystatFs ("/mnt" ++ "/.btrfs-subv-backup.tmp") ("/mnt" ++ "/" ++ "d")] ++ (if exConvCfg.euid = 0 then [Op.chownFs ("/mnt" ++ "/.btrfs-subv-backup.old") ("/mnt" ++ "/" ++ "d")] else [])
             ++ [Op.rmtreeFs ("/mnt" ++ "/.btrfs-subv-backup.old"), Op.delSubvolFail (gen_rand_subvolpath "/mnt" "d" exConvCfg.seed)])) ∧
     ([Op.touch ("/mnt" ++ "/.btrfs-subv-backup.tmp") exConvCfg.fresh, Op.mkSubvol (gen_rand_subvolpath "/mnt" "d" exConvCfg.seed) exConvCfg.fresh, Op.copystatFs ("/mnt" ++ "/" ++ "d") ("/mnt" ++ "/.btrfs-subv-backup.tmp"), Op.setTree (gen_rand_subvolpath "/mnt" "d" exConvCfg.seed) (copytree (CTCfg.mk exConvCfg.euid exConvCfg.fresh exConvCfg.canReflink exConvCfg.method) (Node.dir (FileMeta.mk 493 9 9 100 100) [("sub", Node.dir (FileMeta.mk 448 2 2 0 0) [])]) (Node.dir exConvCfg.fresh [])).dest].all (fun o => !(isRenameOp o)) = true) ∧
     (([Op.copystatFs ("/mnt" ++ "/.btrfs-subv-backup.tmp") ("/mnt" ++ "/" ++ "d")] ++ (if exConvCfg.euid = 0 then [Op.chownFs ("/mnt" ++ "/.btrfs-subv-backup.old") ("/mnt" ++ "/" ++ "d")] else [])
         ++ [Op.rmtreeFs ("/mnt" ++ "/.btrfs-subv-backup.old"), Op.delSubvolFail (gen_rand_subvolpath "/mnt" "d" exConvCfg.seed)]).all (fun o => !(isRenameOp o)) = true) ∧
     fsLookup (applyOps exConvFs ([Op.touch ("/mnt" ++ "/.btrfs-subv-backup.tmp") exConvCfg.fresh, Op.mkSubvol (gen_rand_subvolpath "/mnt" "d" exConvCfg.seed) exConvCfg.fresh, Op.copystatFs ("/mnt" ++ "/" ++ "d") ("/mnt" ++ "/.btrfs-subv-backup.tmp"), Op.setTree (gen_rand_subvolpath "/mnt" "d" exConvCfg.seed) (copytree (CTCfg.mk exConvCfg.euid exConvCfg.fresh exConvCfg.canReflink exConvCfg.method) (Node.dir (FileMeta.mk 493 9 9 100 100) [("sub", Node.dir (FileMeta.mk 448 2 2 0 0) [])]) (Node.dir exConvCfg.fresh [])).dest] ++ [Op.renameFs ("/mnt" ++ "/" ++ "d") ("/mnt" ++ "/.btrfs-subv-backup.old")])) ("/mnt" ++ "/" ++ "d") = none ∧
     fsLookup (applyOps exConvFs ([Op.touch ("/mnt" ++ "/.btrfs-subv-backup.tmp") exConvCfg.fresh, Op.mkSubvol (gen_rand_subvolpath "/mnt" "d" exConvCfg.seed) exConvCfg.fresh, Op.copystatFs ("/mnt" ++ "/" ++ "d") ("/mnt" ++ "/.btrfs-subv-backup.tmp"), Op.setTree (gen_rand_subvolpath "/mnt" "d" exConvCfg.seed) (copytree (CTCfg.mk exConvCfg.euid exConvCfg.fresh exConvCfg.canReflink exConvCfg.method) (Node.dir (FileMeta.mk 493 9 9 100 100) [("sub", Node.dir (FileMeta.mk 448 2 2 0 0) [])]) (Node.dir exConvCfg.fresh [])).dest] ++ [Op.renameFs ("/mnt" ++ "/" ++ "d") ("/mnt" ++ "/.btrfs-subv-backup.old")])) ("/mnt" ++ "/.btrfs-subv-backup.old")
       = some (FsEnt.mk 77 (Node.dir (FileMeta.mk 493 9 9 100 100) [("sub", Node.dir (FileMeta.mk 448 2 2 0 0) [])]))) :=
  ⟨by decide, rfl, rfl, by decide, rfl, rfl, rfl, by decide, by decide,
    by decide, by decide, by decide, by decide, rfl,
    c6_rename_order exConvCfg exConvFs "/mnt" "d" (FsEnt.mk 77 (Node.dir (FileMeta.mk 493 9 9 100 100) [("sub", Node.dir (FileMeta.mk 448 2 2 0 0) [])])) (FileMeta.mk 493 9 9 100 100)
      [("sub", Node.dir (FileMeta.mk 448 2 2 0 0) [])]
      (by decide) rfl rfl (by decide) rfl rfl rfl (by decide) (by decide)
      (by decide) (by decide) (by decide) (by decide) rfl⟩

/-- Claim C8, code-bug evidence: whenever argument parsing and filesystem
resolution succeed, restore mode raises `NameError: name 'verbose' is not
defined` (src line 341) regardless of the snapshot's subvolume list, so it
never iterates the list and never invokes the conversion engine; the claimed
iteration is the evident intent — line 345-347 would sort the list and call
`restore_subvol` once per entry, fail-fast via the propagating exception, and
every other branch of `main` correctly writes `args.verbose`. -/
theorem c8_restore_never_runs (path : String) (mounts : List MntEnt)
    (blk : Option (String × String)) (methodArg : String)
    (reflinkImported : Bool) (snapshot : List String)
    (hm : ∃ mm, parse_args_method "restore" methodArg reflinkImported
      = Except.ok mm)
    (hf : ∃ fi, get_fs_info path mounts blk = Except.ok fi) :
    mainRestore path mounts blk methodArg reflinkImported snapshot
      = Except.error (PyErr.nameError "verbose") ∧
    ∀ u, mainRestore path mounts blk methodArg reflinkImported snapshot
      ≠ Except.ok u := by
  obtain ⟨mm, hm⟩ := hm
  obtain ⟨fi, hf⟩ := hf
  have h1 : mainRestore path mounts blk methodArg reflinkImported snapshot
      = Except.error (PyErr.nameError "verbose") := by
    unfold mainRestore
    rw [hm, hf]
  refine ⟨h1, fun u hc => ?_⟩
  rw [h1] at hc
  exact Except.noConfusion hc

/-- Witness for `c8_restore_never_runs`: a mounted btrfs filesystem at /mnt
with a subvolume-id option, copy method, and a nonempty snapshot list. -/
theorem c8_restore_never_runs_witness :
    (∃ mm, parse_args_method "restore" "copy" true = Except.ok mm) ∧
    (∃ fi, get_fs_info "/mnt"
      [MntEnt.mk "/dev/sda2" "/mnt" "btrfs" "rw,subvolid=5,subvol=/"] none
      = Except.ok fi) ∧
    (mainRestore "/mnt"
        [MntEnt.mk "/dev/sda2" "/mnt" "btrfs" "rw,subvolid=5,subvol=/"] none
        "copy" true ["a", "a/b"]
      = Except.error (PyErr.nameError "verbose") ∧
     ∀ u, mainRestore "/mnt"
        [MntEnt.mk "/dev/sda2" "/mnt" "btrfs" "rw,subvolid=5,subvol=/"] none
        "copy" true ["a", "a/b"]
      ≠ Except.ok u) :=
  ⟨⟨"copy", rfl⟩,
   ⟨FsInfo.mk "/mnt" "/dev/sda2" none none (some "/") 5, rfl⟩,
   c8_restore_never_runs "/mnt"
     [MntEnt.mk "/dev/sda2" "/mnt" "btrfs" "rw,subvolid=5,subvol=/"] none
     "copy" true ["a", "a/b"] ⟨"copy", rfl⟩
     ⟨FsInfo.mk "/mnt" "/dev/sda2" none none (some "/") 5, rfl⟩⟩
